import Mathlib

/-!
# PsyDesign AI dashboard client (`static/script.js`)

A shallow embedding of the client script: the page and the script's variables
are one explicit `State`, every handler is a function on that state, and each
`await` splits a handler into the part that runs before the suspension and
the part that runs when the awaited response is delivered. The outcome of a
network call, of the `confirm` prompt and of a timer is an argument of the
step that consumes it.

Conventions of the embedding:

* JavaScript strings are `String`; the helpers below work on `List Char`.
* JSON numbers that occur as identifiers are safe integers (`Int` within
  ±(2^53 - 1), `isSafeInteger`), on which string conversion, `parseInt` and
  the comparisons are exact. A number with a fractional part or beyond that
  range is outside the embedding, and the theorems on number identifiers
  carry the hypothesis that the identifiers are safe integers.
* Text placed in `innerHTML` is kept as text, not parsed. The embedding
  follows the code for texts without markup (`inertText`: neither `<` nor
  `"`), which the HTML parser keeps as text; the theorems whose conclusion
  depends on the elements of a template being found carry that hypothesis.
  A text with markup may hide an element of the template from the parser, so
  that a lookup of line 138 or of lines 329-331 fails; that is outside the
  embedding.
* `lucide.createIcons()` and `console.error` leave the state as it is.
* `handleGenerateClick`, `handleDeleteHistory` and `loadHistory` are the
  handlers run without interruption: no other handler runs while they are
  suspended. The steps they are composed of are defined on their own, so that
  an interleaving is a composition of steps; the playback properties are
  stated on such compositions.
-/

namespace PsyDesign

/-! ## JavaScript primitives -/

/-- The code points matched by `\s` and removed by `String.prototype.trim`:
ECMAScript WhiteSpace and LineTerminator. -/
def jsIsWhitespace (c : Char) : Bool :=
  let n := c.toNat
  n == 9 || n == 10 || n == 11 || n == 12 || n == 13 || n == 32 || n == 160 ||
  n == 5760 || (8192 ≤ n && n ≤ 8202) || n == 8232 || n == 8233 || n == 8239 ||
  n == 8287 || n == 12288 || n == 65279

/-- Drop the leading whitespace of a character list. -/
def dropLeadingWs : List Char → List Char
  | [] => []
  | c :: cs => if jsIsWhitespace c then dropLeadingWs cs else c :: cs

/-- Trim on character lists: leading and trailing whitespace removed. -/
def jsTrimChars (cs : List Char) : List Char :=
  (dropLeadingWs (dropLeadingWs cs).reverse).reverse

/-- The method `String.prototype.trim`. -/
def jsTrim (s : String) : String := String.mk (jsTrimChars s.data)

/-- The replacement `s.replace(/\s+/g, sep)` on character lists; `inRun` tells
that the previous character belonged to the whitespace run being replaced. -/
def replaceWsRuns (sep : Char) : Bool → List Char → List Char
  | _, [] => []
  | inRun, c :: cs =>
    if jsIsWhitespace c then
      if inRun then replaceWsRuns sep true cs else sep :: replaceWsRuns sep true cs
    else c :: replaceWsRuns sep false cs

/-- The call `s.replace(/\s+/g, sep)` for a one-character replacement. -/
def jsReplaceWs (s : String) (sep : Char) : String :=
  String.mk (replaceWsRuns sep false s.data)

/-- Value of a digit character in the given radix (2, 8, 10 or 16). -/
def radixDigitVal (radix : Nat) (c : Char) : Option Nat :=
  let n := c.toNat
  let v : Option Nat :=
    if 48 ≤ n ∧ n ≤ 57 then some (n - 48)
    else if 97 ≤ n ∧ n ≤ 102 then some (n - 87)
    else if 65 ≤ n ∧ n ≤ 70 then some (n - 55)
    else none
  match v with
  | some d => if d < radix then some d else none
  | none => none

/-- Read the longest prefix of digits of the radix: the value accumulated, the
number of digits read and the characters left. -/
def readDigits (radix : Nat) : Nat → Nat → List Char → Nat × Nat × List Char
  | acc, cnt, [] => (acc, cnt, [])
  | acc, cnt, c :: cs =>
    match radixDigitVal radix c with
    | some d => readDigits radix (acc * radix + d) (cnt + 1) cs
    | none => (acc, cnt, c :: cs)

/-- Read an optional sign: `true` for a minus sign. -/
def readSign : List Char → Bool × List Char
  | [] => (false, [])
  | c :: cs =>
    if c.toNat = 45 then (true, cs)
    else if c.toNat = 43 then (false, cs)
    else (false, c :: cs)

/-- The call `parseInt(s, 10)`; `none` is `NaN`. Leading whitespace is skipped,
a sign is read, then the longest run of decimal digits. -/
def jsParseInt10 (s : String) : Option Int :=
  let (neg, rest) := readSign (dropLeadingWs s.data)
  let (v, cnt, _) := readDigits 10 0 0 rest
  if cnt = 0 then none
  else some (if neg then -(v : Int) else (v : Int))

/-- Decimal digits of a natural number, most significant first; the first
argument bounds the number of digits. -/
def natDigitsAux : Nat → Nat → List Char → List Char
  | 0, _, acc => acc
  | fuel + 1, n, acc =>
    let acc1 := Char.ofNat (48 + n % 10) :: acc
    if n / 10 = 0 then acc1 else natDigitsAux fuel (n / 10) acc1

/-- Decimal numeral of a natural number. -/
def natToDecimal (n : Nat) : List Char := natDigitsAux (n + 1) n []

/-- The plain decimal numeral of an integer: the number-to-string conversion
of a safe integer. -/
def intToDecimal : Int → String
  | Int.ofNat n => String.mk (natToDecimal n)
  | Int.negSucc n => String.mk (Char.ofNat 45 :: natToDecimal (n + 1))

/-- The exponent part of a decimal literal, after the `e`: a signed run of at
least one digit, with nothing after it. -/
def readExponent (cs : List Char) : Option Int :=
  let (neg, rest) := readSign cs
  let (v, cnt, tail) := readDigits 10 0 0 rest
  if cnt = 0 ∨ tail ≠ [] then none
  else some (if neg then -(v : Int) else (v : Int))

/-- The integer `m * 10 ^ e` when it is one. -/
def scaleDecimal (m : Nat) (e : Int) : Option Int :=
  match e with
  | Int.ofNat k => some ((m * 10 ^ k : Nat) : Int)
  | Int.negSucc k =>
    if m % 10 ^ (k + 1) = 0 then some ((m / 10 ^ (k + 1) : Nat) : Int) else none

/-- An unsigned decimal literal `digits [. digits] [e exponent]` or
`. digits [e exponent]`: its value when that is an integer. -/
def readUnsignedDecimal (cs : List Char) : Option Int :=
  let (iv, icnt, rest) := readDigits 10 0 0 cs
  let (mant, fcnt, rest2) : Nat × Nat × List Char :=
    match rest with
    | c :: cs1 =>
      if c.toNat = 46 then
        let (v, cnt, r) := readDigits 10 iv 0 cs1
        (v, cnt, r)
      else (iv, 0, rest)
    | [] => (iv, 0, [])
  let dotSeen : Bool := match rest with
    | c :: _ => c.toNat == 46
    | [] => false
  if icnt = 0 ∧ fcnt = 0 then none
  else if icnt = 0 ∧ ¬ dotSeen then none
  else
    match rest2 with
    | [] => scaleDecimal mant (-(fcnt : Int))
    | c :: cs2 =>
      if c.toNat = 101 ∨ c.toNat = 69 then
        match readExponent cs2 with
        | some e => scaleDecimal mant (e - (fcnt : Int))
        | none => none
      else none

/-- A literal with a radix marker (`0x`, `0o`, `0b`, either case): its value. -/
def readRadixLiteral (cs : List Char) : Option Int :=
  match cs with
  | z :: m :: rest =>
    if z.toNat = 48 then
      let radix : Nat :=
        if m.toNat = 120 ∨ m.toNat = 88 then 16
        else if m.toNat = 111 ∨ m.toNat = 79 then 8
        else if m.toNat = 98 ∨ m.toNat = 66 then 2
        else 0
      if radix = 0 then none
      else
        let (v, cnt, tail) := readDigits radix 0 0 rest
        if cnt = 0 ∨ tail ≠ [] then none else some (v : Int)
    else none
  | _ => none

/-- String-to-number conversion (the abstract operation `StringToNumber`),
as far as the result is an integer: `none` stands for `NaN`, an infinity or a
value with a fractional part, none of which equals an integer identifier.
The value of the literal is taken exactly, where the code rounds it to a
double; the two agree on the literals of safe integers. -/
def jsStringToInt (s : String) : Option Int :=
  let cs := jsTrimChars s.data
  if cs = [] then some 0
  else
    match readRadixLiteral cs with
    | some v => some v
    | none =>
      let (neg, rest) := readSign cs
      match readUnsignedDecimal rest with
      | some v => some (if neg then -v else v)
      | none => none

/-- The JSON values that reach the script in an `id` position, together with
`undefined` for a field that is missing. `num n` is the number whose value is
the integer `n`; the conversions and comparisons below follow the code when
`n` is a safe integer (`isSafeInteger`). -/
inductive JsVal where
  | undefined
  | null
  | num (n : Int)
  | str (s : String)
  deriving DecidableEq, Repr

/-- Truthiness (`ToBoolean`). -/
def JsVal.truthy : JsVal → Bool
  | .undefined => false
  | .null => false
  | .num n => n != 0
  | .str s => s != ""

/-- String conversion, as performed by a template literal or by an assignment
to `dataset.id`; for a number, that of a safe integer. -/
def JsVal.toJsString : JsVal → String
  | .undefined => "undefined"
  | .null => "null"
  | .num n => intToDecimal n
  | .str s => s

/-- Loose equality `a == b`. -/
def JsVal.looseEq : JsVal → JsVal → Bool
  | .undefined, .undefined => true
  | .undefined, .null => true
  | .null, .undefined => true
  | .null, .null => true
  | .num a, .num b => a == b
  | .str a, .str b => a == b
  | .num a, .str b => jsStringToInt b == some a
  | .str a, .num b => jsStringToInt a == some b
  | _, _ => false

/-- Strict equality `parseInt(..) === id` of a `parseInt` result with a value:
true exactly for a number with the same value. -/
def parsedStrictEq (p : Option Int) (v : JsVal) : Bool :=
  match p, v with
  | some a, .num b => a == b
  | _, _ => false

/-! ## Data model -/

/-- An exception value. `error m` is `new Error(m)`; `engine kind` is an
exception raised by the engine or by the network layer (a `TypeError` on a
missing member, a `SyntaxError` of `response.json()`, a rejected `fetch`),
whose message text is the engine's. -/
inductive JsError where
  | error (message : String)
  | engine (kind : String)
  deriving DecidableEq, Repr

/-- One blocking `alert(..)`: a fixed text, or a text that ends with the
message of a caught exception. -/
inductive Alert where
  | text (s : String)
  | textWithMessage (before : String) (e : JsError)
  deriving DecidableEq, Repr

/-- The member `brand_personality` of an analysis. `values` is `none` when it
is not an array. A text member that is missing prints as `undefined`. -/
structure Personality where
  archetype : String
  tone_of_voice : String
  values : Option (List String)
  deriving DecidableEq, Repr

/-- One of `font_pairing.heading` and `font_pairing.body`: the object may be
missing, or be there without a string `name`. -/
inductive FontRef where
  | missing
  | unnamed
  | named (name : String)
  deriving DecidableEq, Repr

/-- The member `visual_identity.font_pairing`. -/
structure FontPairing where
  heading : FontRef
  body : FontRef
  deriving DecidableEq, Repr

/-- The member `target_audience_persona`. -/
structure Persona where
  name : String
  age_range : String
  occupation : String
  interests : Option (List String)
  pain_points : Option (List String)
  deriving DecidableEq, Repr

/-- A brand analysis as it arrives from the server. A member is `none` when
the payload lacks it (or gives it the wrong shape), which makes the renderer
throw where it reads through it. `font_pairing` is
`visual_identity.font_pairing`. -/
structure Analysis where
  brand_personality : Option Personality
  font_pairing : Option FontPairing
  target_audience_persona : Option Persona
  brand_names : Option (List String)
  slogans : Option (List String)
  brand_story : String
  deriving DecidableEq, Repr

/-- One element of the array served by `GET /api/history`. `analysis` is
`none` when the member is missing or null. -/
structure HistoryEntry where
  id : JsVal
  description : String
  analysis : Option Analysis
  logo_url : String
  deriving DecidableEq, Repr

/-- A `li.history-item` element. `node` is the identity of the element,
`itemId` the `item.id` its two click listeners have captured. -/
structure Row where
  node : Nat
  dataId : String
  title : String
  html : String
  active : Bool
  fading : Bool
  itemId : JsVal
  deriving DecidableEq, Repr

/-- A `link` element appended to `document.head` by `loadGoogleFont`. -/
structure FontLink where
  id : String
  href : String
  deriving DecidableEq, Repr

/-- The chat elements created by the results template. -/
structure ChatPanel where
  inputValue : String
  inputDisabled : Bool
  bubbles : List (String × String)
  deriving DecidableEq, Repr

/-- A network call issued through `fetch`. -/
inductive Request where
  | getHistory
  | deleteHistory (idText : String)
  | generateBrand (description : String) (language : String)
  | tts (text : String)
  | chatWithPersona (analysis : Analysis) (message : String) (language : String)
  | proxyImage (logoSrc : String)
  deriving DecidableEq, Repr

/-- The page and the variables of the script. -/
structure State where
  /-- The inline style `inputSectionWrapper.style.display`. -/
  inputDisplay : String
  /-- The inline style `loaderContainer.style.display`. -/
  loaderDisplay : String
  /-- The inline style `brandOutput.style.display`. -/
  outputDisplay : String
  /-- The text `brandDescriptionInput.value`. -/
  descriptionValue : String
  /-- The markup `brandOutput.innerHTML`. -/
  outputHtml : String
  /-- The chat elements inside `brandOutput`, once a report was rendered. -/
  chat : Option ChatPanel
  /-- The children of `historyList`, in document order. -/
  rows : List Row
  /-- Rows that were taken out of the document. -/
  detached : List Row
  /-- The identity the next created row gets. -/
  nextNode : Nat
  /-- The font stylesheets in `document.head`. -/
  fontLinks : List FontLink
  /-- Whether `sidebar` has the class `open`. -/
  sidebarOpen : Bool
  /-- Whether `sidebarOverlay` has the class `active`. -/
  overlayActive : Bool
  /-- Whether `menuToggle` has the class `hidden`. -/
  menuHidden : Bool
  /-- The attribute `document.documentElement.lang`. -/
  lang : String
  /-- The variable `currentAnalysisData`; `none` is `null` or `undefined`. -/
  currentAnalysisData : Option Analysis
  /-- The variable `currentHistory`. -/
  currentHistory : List HistoryEntry
  /-- The variable `currentAudio`: the identity of an `Audio` object. -/
  currentAudio : Option Nat
  /-- The variable `currentlyPlayingButton`: the identity of a speak button. -/
  currentlyPlayingButton : Option Nat
  /-- The `Audio` objects that are playing. -/
  playing : List Nat
  /-- The identity the next created `Audio` object gets. -/
  nextAudio : Nat
  /-- The speak buttons whose content is the stop icon; every other speak
  button shows the speaker image. -/
  stopIcons : List Nat
  /-- The number of `handleTTS` calls suspended at `await fetch`. -/
  pendingTTS : Nat
  /-- The network calls issued so far, oldest first. -/
  network : List Request
  /-- The alerts shown so far, oldest first. -/
  alerts : List Alert
  deriving DecidableEq, Repr

/-- A panel is shown unless its inline `display` is `none`. -/
def visible (display : String) : Bool := display != "none"

/-! ## Translation table -/

/-- The 21 labels of one entry of the `translations` object. -/
structure Labels where
  report_title : String
  logo_title : String
  chat_title : String
  chat_placeholder : String
  chat_button : String
  brand_archetype : String
  tone_of_voice : String
  core_values : String
  font_pairing_live : String
  heading : String
  body : String
  target_audience : String
  age : String
  occupation : String
  interests : String
  pain_points : String
  brand_names_title : String
  slogans_title : String
  brand_story_title : String
  font_preview_heading_text : String
  font_preview_body_text : String
  deriving DecidableEq, Repr

/-- The `en` entry of `translations` (English). -/
def translations_en : Labels where
  report_title := "Brand Psychology Report"
  logo_title := "Generated Logo"
  chat_title := "Chat with Your Brand Persona"
  chat_placeholder := "Ask about brand voice..."
  chat_button := "Send"
  brand_archetype := "Brand Archetype"
  tone_of_voice := "Tone of Voice"
  core_values := "Core Values"
  font_pairing_live := "Live Font Pairing Preview"
  heading := "Heading"
  body := "Body"
  target_audience := "Target Audience"
  age := "Age"
  occupation := "Occupation"
  interests := "Interests"
  pain_points := "Pain Points"
  brand_names_title := "Suggested Brand Names"
  slogans_title := "Suggested Slogans"
  brand_story_title := "Brand Story"
  font_preview_heading_text := "This is a Heading."
  font_preview_body_text := "This is the body text. It's designed to give you a feel for the selected font in a paragraph."

/-- The `es` entry of `translations` (Spanish). -/
def translations_es : Labels where
  report_title := "Informe de Psicología de Marca"
  logo_title := "Logo Generado"
  chat_title := "Chatea con la Persona de tu Marca"
  chat_placeholder := "Pregunta sobre el tono..."
  chat_button := "Enviar"
  brand_archetype := "Arquetipo de Marca"
  tone_of_voice := "Tono de Voz"
  core_values := "Valores Fundamentales"
  font_pairing_live := "Previsualización de Fuentes en Vivo"
  heading := "Título"
  body := "Cuerpo"
  target_audience := "Público Objetivo"
  age := "Edad"
  occupation := "Ocupación"
  interests := "Intereses"
  pain_points := "Puntos de Dolor"
  brand_names_title := "Nombres de Marca Sugeridos"
  slogans_title := "Lemas Sugeridos"
  brand_story_title := "Historia de la Marca"
  font_preview_heading_text := "Esto es un Título."
  font_preview_body_text := "Este es el texto del cuerpo. Está diseñado para que te hagas una idea de la fuente seleccionada en un párrafo."

/-- The `fr` entry of `translations` (French). -/
def translations_fr : Labels where
  report_title := "Rapport de Psychologie de Marque"
  logo_title := "Logo Généré"
  chat_title := "Discutez avec le Persona"
  chat_placeholder := "Posez des questions..."
  chat_button := "Envoyer"
  brand_archetype := "Archétype de Marque"
  tone_of_voice := "Ton de la Voix"
  core_values := "Valeurs Fondamentales"
  font_pairing_live := "Aperçu en Direct des Polices"
  heading := "Titre"
  body := "Corps"
  target_audience := "Public Cible"
  age := "Âge"
  occupation := "Profession"
  interests := "Intérêts"
  pain_points := "Points de Douleur"
  brand_names_title := "Noms de Marque Suggérés"
  slogans_title := "Slogans Suggérés"
  brand_story_title := "Histoire de la Marque"
  font_preview_heading_text := "Ceci est un Titre."
  font_preview_body_text := "Ceci est le corps du texte. Il est conçu pour vous donner une idée de la police sélectionnée dans un paragraphe."

/-- The `hi` entry of `translations` (Hindi). -/
def translations_hi : Labels where
  report_title := "ब्रांड मनोविज्ञान रिपोर्ट"
  logo_title := "उत्पन्न लोगो"
  chat_title := "अपने ब्रांड व्यक्तित्व से चैट करें"
  chat_placeholder := "आवाज़ के बारे में पूछें..."
  chat_button := "भेजें"
  brand_archetype := "ब्रांड आद्यरूप"
  tone_of_voice := "आवाज़ का लहजा"
  core_values := "मूलभूत मूल्य"
  font_pairing_live := "लाइव फ़ॉन्ट पूर्वावलोकन"
  heading := "शीर्षक"
  body := "मुख्य-भाग"
  target_audience := "लक्षित दर्शक"
  age := "आयु"
  occupation := "व्यवसाय"
  interests := "रूचियाँ"
  pain_points := "समस्याएं"
  brand_names_title := "सुझाए गए ब्रांड नाम"
  slogans_title := "सुझाए गए नारे"
  brand_story_title := "ब्रांड की कहानी"
  font_preview_heading_text := "यह एक शीर्षक है।"
  font_preview_body_text := "यह मुख्य लेख है। इसे आपको एक पैराग्राफ में चयनित फ़ॉन्ट का अनुभव देने के लिए डिज़ाइन किया गया है।"

/-- The `zh` entry of `translations` (Chinese). -/
def translations_zh : Labels where
  report_title := "品牌心理学报告"
  logo_title := "生成的标志"
  chat_title := "与您的品牌形象聊天"
  chat_placeholder := "询问品牌声音..."
  chat_button := "发送"
  brand_archetype := "品牌原型"
  tone_of_voice := "语气"
  core_values := "核心价值观"
  font_pairing_live := "字体实时预览"
  heading := "标题"
  body := "正文"
  target_audience := "目标受众"
  age := "年龄"
  occupation := "职业"
  interests := "兴趣"
  pain_points := "痛点"
  brand_names_title := "建议的品牌名称"
  slogans_title := "建议的口号"
  brand_story_title := "品牌故事"
  font_preview_heading_text := "这是一个标题。"
  font_preview_body_text := "这是正文文本。它旨在让您感受所选字体在段落中的效果。"

/-- The `ar` entry of `translations` (Arabic). -/
def translations_ar : Labels where
  report_title := "تقرير سيكولوجية العلامة التجارية"
  logo_title := "الشعار المُولَّد"
  chat_title := "تحدث مع شخصية علامتك"
  chat_placeholder := "اسأل عن نبرة العلامة..."
  chat_button := "إرسال"
  brand_archetype := "النموذج الأصلي للعلامة"
  tone_of_voice := "نبرة الصوت"
  core_values := "القيم الأساسية"
  font_pairing_live := "معاينة حية للخطوط"
  heading := "عنوان"
  body := "متن"
  target_audience := "الجمهور المستهدف"
  age := "العمر"
  occupation := "المهنة"
  interests := "الاهتمامات"
  pain_points := "نقاط الألم"
  brand_names_title := "أسماء تجارية مقترحة"
  slogans_title := "شعارات مقترحة"
  brand_story_title := "قصة العلامة التجارية"
  font_preview_heading_text := "هذا عنوان."
  font_preview_body_text := "هذا هو نص المتن. وهو مصمم ليعطيك إحساسًا بالخط المحدد في فقرة."

/-- The value of `translations[lang] || translations['en']`: one of the six
tables, or a member inherited from `Object.prototype`, on which every label
reads `undefined`. -/
inductive Translations where
  | table (l : Labels)
  | inherited (key : String)
  deriving DecidableEq, Repr

/-- The property names every object literal inherits from `Object.prototype`;
each names a function or an object, so the lookup result is truthy. -/
def objectPrototypeKeys : List String :=
  ["constructor", "hasOwnProperty", "isPrototypeOf", "propertyIsEnumerable",
   "toLocaleString", "toString", "valueOf", "__proto__", "__defineGetter__",
   "__defineSetter__", "__lookupGetter__", "__lookupSetter__"]

/-- The function `getTranslations`, with the document language as argument. -/
def getTranslations (lang : String) : Translations :=
  if lang = "en" then .table translations_en
  else if lang = "es" then .table translations_es
  else if lang = "fr" then .table translations_fr
  else if lang = "hi" then .table translations_hi
  else if lang = "zh" then .table translations_zh
  else if lang = "ar" then .table translations_ar
  else if lang ∈ objectPrototypeKeys then .inherited lang
  else .table translations_en

/-- Reading a label `t.name` inside the template: the text it prints. -/
def Translations.label (t : Translations) (f : Labels → String) : String :=
  match t with
  | .table l => f l
  | .inherited _ => "undefined"

/-! ## View operations -/

/-- The list items `xs.map(v => "<li>" + v + "</li>").join('')`. -/
def liItems (xs : List String) : String :=
  String.join (xs.map fun v => "<li>" ++ v ++ "</li>")

/-- The template literal assigned to `brandOutput.innerHTML`. -/
def resultsHtml (t : Translations) (logoUrl headingFont bodyFont : String)
    (bp : Personality) (values : List String) (story : String)
    (names slogans : List String) (tp : Persona) (interests pains : List String) :
    String :=
  String.join [
    "\n            <div class=\"result-card\">\n                <h2>",
    t.label Labels.report_title,
    "</h2>\n                <div class=\"grid-2\">\n                    <div class=\"grid-item\"><h4>",
    t.label Labels.brand_archetype,
    "</h4><p>",
    bp.archetype,
    "</p></div>\n                    <div class=\"grid-item\"><h4>",
    t.label Labels.tone_of_voice,
    "</h4><p>",
    bp.tone_of_voice,
    "</p></div>\n                    <div class=\"grid-item\" style=\"grid-column: 1 / -1;\"><h4>",
    t.label Labels.core_values,
    "</h4><ul>",
    liItems values,
    "</ul></div>\n                </div>\n            </div>\n            \n",
    "            <div class=\"result-card\">\n                <h2>",
    t.label Labels.logo_title,
    "</h2>\n                <div class=\"logo-container\" id=\"main-logo-container\">\n",
    "                    <img src=\"",
    logoUrl,
    "\" alt=\"Generated Brand Logo\" id=\"main-logo-img\">\n                    <button class=\"download-logo-btn\" id=\"download-logo-btn\" title=\"Download Logo\"><i data-lucide=\"download\"></i></button>\n",
    "                </div>\n            </div>\n\n            <div class=\"result-card\">\n",
    "                <h2>",
    t.label Labels.font_pairing_live,
    "</h2>\n                <div class=\"font-preview-container\">\n                    <p class=\"font-preview-heading\" style=\"font-family: '",
    headingFont,
    "', var(--font-heading);\">",
    t.label Labels.font_preview_heading_text,
    "</p>\n                    <p class=\"font-preview-body\" style=\"font-family: '",
    bodyFont,
    "', var(--font-body);\">",
    t.label Labels.font_preview_body_text,
    "</p>\n                </div>\n                <p class=\"font-info\">",
    t.label Labels.heading,
    ": ",
    headingFont,
    " | ",
    t.label Labels.body,
    ": ",
    bodyFont,
    "</p>\n            </div>\n\n            <div class=\"result-card\">\n",
    "                <h2>",
    t.label Labels.brand_story_title,
    "</h2>\n                <p><em>\"",
    story,
    "\"</em></p>\n            </div>\n\n            <div class=\"result-card\">\n",
    "                <h2>",
    t.label Labels.brand_names_title,
    "</h2>\n                <ul class=\"suggestions-list\">",
    liItems names,
    "</ul>\n            </div>\n\n            <div class=\"result-card\">\n",
    "                <h2>",
    t.label Labels.slogans_title,
    "</h2>\n                <ul class=\"suggestions-list\">",
    liItems slogans,
    "</ul>\n            </div>\n\n            <div class=\"result-card\">\n",
    "                <h3>",
    t.label Labels.target_audience,
    ": ",
    tp.name,
    "</h3>\n                <div class=\"grid-2\">\n                    <div class=\"grid-item\"><p><strong>",
    t.label Labels.age,
    ":</strong> ",
    tp.age_range,
    "</p></div>\n                    <div class=\"grid-item\"><p><strong>",
    t.label Labels.occupation,
    ":</strong> ",
    tp.occupation,
    "</p></div>\n                </div>\n                <div class=\"grid-item\" style=\"margin-top: 1.5rem;\"><h4>",
    t.label Labels.interests,
    "</h4><ul>",
    liItems interests,
    "</ul></div>\n                <div class=\"grid-item\" style=\"margin-top: 1.5rem;\"><h4>",
    t.label Labels.pain_points,
    "</h4><ul>",
    liItems pains,
    "</ul></div>\n            </div>\n\n            <div class=\"result-card persona-chat-container\">\n",
    "                <h2>",
    t.label Labels.chat_title,
    "</h2>\n                <div id=\"chat-box\" class=\"chat-box\"></div>\n",
    "                <div class=\"chat-input-area\">\n                    <input type=\"text\" id=\"chat-input\" placeholder=\"",
    t.label Labels.chat_placeholder,
    "\">\n                    <button id=\"chat-send-btn\"><i data-lucide=\"send\"></i></button>\n",
    "                </div>\n            </div>\n        "
  ]

/-- The second argument of `classList.toggle('active', ..)` in
`setActiveHistoryItem`, the value of `id && parseInt(el.dataset.id, 10) === id`:
`some b` for a value that converts to the boolean `b`, `none` for `undefined`,
which `toggle` takes as no argument. -/
def activeForce (id : JsVal) (dataId : String) : Option Bool :=
  if id.truthy then some (parsedStrictEq (jsParseInt10 dataId) id)
  else
    match id with
    | .undefined => none
    | _ => some false

/-- The method `classList.toggle(token, force)` on the presence of the token:
forced when `force` is given, flipped when it is not. -/
def classToggle (present : Bool) : Option Bool → Bool
  | some b => b
  | none => !present

/-- The function `setActiveHistoryItem`. -/
def setActiveHistoryItem (s : State) (id : JsVal) : State :=
  { s with rows := s.rows.map fun el =>
      { el with active := classToggle el.active (activeForce id el.dataId) } }

/-- The function `showInputScreen`. -/
def showInputScreen (s : State) : State :=
  setActiveHistoryItem
    { s with inputDisplay := "block", loaderDisplay := "none",
             outputDisplay := "none", descriptionValue := "" }
    .null

/-- The function `toggleSidebar`. -/
def toggleSidebar (s : State) : State :=
  let isOpen := !s.sidebarOpen
  { s with sidebarOpen := isOpen, overlayActive := !s.overlayActive,
           menuHidden := isOpen }

/-- The function `loadGoogleFont`. -/
def loadGoogleFont (s : State) (fontName : String) : State :=
  let fontId := "font-" ++ jsReplaceWs fontName (Char.ofNat 45)
  if s.fontLinks.any (fun l => l.id == fontId) then s
  else
    { s with fontLinks := s.fontLinks ++ [
        { id := fontId,
          href := "https://fonts.googleapis.com/css2?family=" ++
                  jsReplaceWs fontName (Char.ofNat 43) ++ ":wght@400;700&display=swap" }] }

/-- The function `displayResults`: the state it leaves and the exception it
throws, if any. The exceptions are the `TypeError`s of reading through a
missing member; they arise before `brandOutput` is written. The three lookups
that attach the listeners (lines 329-331) are taken to find their elements,
which is so when the texts placed in the template hold no markup
(`Analysis.inert`). -/
def displayResults (s : State) (analysisData : Option Analysis) (logoUrl : String) :
    State × Option JsError :=
  let s1 := { s with currentAnalysisData := analysisData }
  let t := getTranslations s.lang
  match analysisData with
  | none => (s1, some (.engine "TypeError"))
  | some a =>
    match a.font_pairing with
    | none => (s1, some (.engine "TypeError"))
    | some fp =>
      match fp.heading, fp.body with
      | .missing, _ => (s1, some (.engine "TypeError"))
      | _, .missing => (s1, some (.engine "TypeError"))
      | .unnamed, _ => (s1, some (.engine "TypeError"))
      | .named headingFont, .unnamed =>
        (loadGoogleFont s1 headingFont, some (.engine "TypeError"))
      | .named headingFont, .named bodyFont =>
        let s2 := loadGoogleFont (loadGoogleFont s1 headingFont) bodyFont
        match a.brand_personality, a.brand_names, a.slogans, a.target_audience_persona with
        | some bp, some names, some slogans, some tp =>
          match bp.values, tp.interests, tp.pain_points with
          | some values, some interests, some pains =>
            ({ s2 with
                outputHtml := resultsHtml t logoUrl headingFont bodyFont bp values
                  a.brand_story names slogans tp interests pains,
                chat := some { inputValue := "", inputDisabled := false, bubbles := [] },
                inputDisplay := "none",
                outputDisplay := "flex" }, none)
          | _, _, _ => (s2, some (.engine "TypeError"))
        | _, _, _, _ => (s2, some (.engine "TypeError"))

/-! ## History store -/

/-- Outcome of `GET /api/history`, up to `await response.json()`. A 2xx body
that parses is the array of entries the endpoint serves. -/
inductive HistoryResponse where
  | rejected
  | notOk
  | badBody
  | ok (entries : List HistoryEntry)
  deriving DecidableEq, Repr

/-- The `li` element `loadHistory` builds for one entry. -/
def renderRow (node : Nat) (item : HistoryEntry) : Row :=
  { node := node,
    dataId := item.id.toJsString,
    title := item.description,
    html := "<p>" ++ item.description ++
      "</p><button class=\"delete-history-btn\" title=\"Delete\"><i data-lucide=\"x\" size=\"16\"></i></button>",
    active := false,
    fading := false,
    itemId := item.id }

/-- The rows of `currentHistory.forEach(..)`, numbered from `start`. -/
def renderRows (start : Nat) : List HistoryEntry → List Row
  | [] => []
  | item :: rest => renderRow start item :: renderRows (start + 1) rest

/-- The function `loadHistory` up to `await fetch('/api/history')`. -/
def loadHistoryStart (s : State) : State :=
  { s with network := s.network ++ [Request.getHistory] }

/-- The function `loadHistory` from the delivery of the response on. Every
failure is caught inside and only logged. A row is built for every served
entry: the lookup of the delete button (line 138) is taken to succeed, which
is so for a description without markup (`HistoryEntry.plain`). -/
def loadHistoryResume (s : State) (r : HistoryResponse) : State :=
  match r with
  | .ok entries =>
    { s with currentHistory := entries,
             detached := s.detached ++ s.rows,
             rows := renderRows s.nextNode entries,
             nextNode := s.nextNode + entries.length }
  | _ => s

/-- The function `loadHistory`, run without interruption. -/
def loadHistory (s : State) (r : HistoryResponse) : State :=
  loadHistoryResume (loadHistoryStart s) r

/-- The function `displayHistoryItem`: the state it leaves and the exception
that escapes it, if any. -/
def displayHistoryItem (s : State) (id : JsVal) : State × Option JsError :=
  match s.currentHistory.find? (fun h => h.id.looseEq id) with
  | none => (s, none)
  | some item =>
    match displayResults s item.analysis item.logo_url with
    | (s1, some e) => (s1, some e)
    | (s1, none) =>
      let s2 := setActiveHistoryItem s1 id
      (if s2.sidebarOpen then toggleSidebar s2 else s2, none)

/-- Outcome of `DELETE /api/history/{id}`. -/
inductive DeleteResponse where
  | rejected
  | notOk
  | ok
  deriving DecidableEq, Repr

/-- The function `handleDeleteHistory` after a confirmed prompt, up to
`await fetch(..)`. -/
def deleteRequest (s : State) (id : JsVal) : State :=
  { s with network := s.network ++ [Request.deleteHistory id.toJsString] }

/-- The three `element.style` assignments that start the fade, seen from one
row: they change the row that is `element`. -/
def fadeElement (element : Nat) (el : Row) : Row :=
  if el.node = element then { el with fading := true } else el

/-- The three `element.style` assignments that start the fade. -/
def startFade (s : State) (element : Nat) : State :=
  { s with rows := s.rows.map (fadeElement element),
           detached := s.detached.map (fadeElement element) }

/-- The function `handleDeleteHistory` from the delivery of the response to
`setTimeout`; the flag tells whether the timer was set. -/
def deleteAfterResponse (s : State) (element : Nat) (r : DeleteResponse) :
    State × Bool :=
  match r with
  | .ok => (startFade s element, true)
  | _ => ({ s with alerts := s.alerts ++ [Alert.text "Could not delete the item."] }, false)

/-- The timer callback of `handleDeleteHistory`, run 300 ms later:
`element.remove()`, then `showInputScreen()` if the element has the class
`active`. -/
def deleteTimer (s : State) (element : Nat) : State :=
  match s.rows.find? (fun el => el.node == element) with
  | some el =>
    let s1 := { s with rows := s.rows.eraseP (fun r => r.node == element),
                       detached := s.detached ++ [el] }
    if el.active then showInputScreen s1 else s1
  | none =>
    match s.detached.find? (fun el => el.node == element) with
    | some el => if el.active then showInputScreen s else s
    | none => s

/-- The function `handleDeleteHistory(id, element)` with its timer, run
without interruption: `confirmed` is the answer to the prompt. -/
def handleDeleteHistory (s : State) (id : JsVal) (element : Nat) (confirmed : Bool)
    (r : DeleteResponse) : State :=
  if confirmed then
    match deleteAfterResponse (deleteRequest s id) element r with
    | (s1, true) => deleteTimer s1 element
    | (s1, false) => s1
  else s

/-! ## Generation -/

/-- The body of an error response, as `await response.json()` and the read of
`errData.error` meet it. `unreadable kind`: `response.json()` rejects with an
exception of that kind (the body is not JSON). `nullBody`: the body is the
JSON value `null`, on which reading `.error` throws a `TypeError`. `parsed
error`: the body is any other JSON value; `error` is its `error` member
converted to text, `none` when the member is missing or is a falsy value
other than the empty string. -/
inductive ErrorBody where
  | unreadable (kind : String)
  | nullBody
  | parsed (error : Option String)
  deriving DecidableEq, Repr

/-- The expression `error || fallback`. -/
def orFallback (error : Option String) (fallback : String) : String :=
  match error with
  | some m => if m = "" then fallback else m
  | none => fallback

/-- The object a 2xx response of `POST /api/generate-brand` parses to. -/
structure GenerateData where
  id : JsVal
  analysis : Option Analysis
  logo_url : String
  deriving DecidableEq, Repr

/-- Outcome of `POST /api/generate-brand`. -/
inductive GenerateResponse where
  | rejected
  | notOk (body : ErrorBody)
  | okUnreadable (kind : String)
  | ok (data : GenerateData)
  deriving DecidableEq, Repr

/-- The switch to the loading view in `handleGenerateClick`. -/
def showLoading (s : State) : State :=
  { s with inputDisplay := "none", loaderDisplay := "block", outputDisplay := "none" }

/-- The call `fetch('/api/generate-brand', ..)`. -/
def generateRequest (s : State) (description : String) : State :=
  { s with network := s.network ++ [Request.generateBrand description s.lang] }

/-- The `catch` block of `handleGenerateClick`. -/
def generateCatch (s : State) (e : JsError) : State :=
  showInputScreen
    { s with alerts := s.alerts ++
        [Alert.textWithMessage "Failed to generate brand identity: " e] }

/-- The `finally` block of `handleGenerateClick`. -/
def generateFinally (s : State) : State :=
  { s with loaderDisplay := "none" }

/-- Where `handleGenerateClick` stands after the response was handled: it has
completed, or it is suspended at `await loadHistory()` holding `data.id`. -/
inductive GenerateProgress where
  | done (s : State)
  | awaitingHistory (s : State) (id : JsVal)
  deriving DecidableEq, Repr

/-- The function `handleGenerateClick` from the delivery of the response to
the next suspension or to its end. -/
def generateAfterFetch (s : State) (r : GenerateResponse) : GenerateProgress :=
  match r with
  | .rejected => .done (generateFinally (generateCatch s (.engine "TypeError")))
  | .notOk (.unreadable kind) => .done (generateFinally (generateCatch s (.engine kind)))
  | .notOk .nullBody => .done (generateFinally (generateCatch s (.engine "TypeError")))
  | .notOk (.parsed error) =>
    .done (generateFinally (generateCatch s (.error (orFallback error "Server error."))))
  | .okUnreadable kind => .done (generateFinally (generateCatch s (.engine kind)))
  | .ok data =>
    match displayResults s data.analysis data.logo_url with
    | (s1, some e) => .done (generateFinally (generateCatch s1 e))
    | (s1, none) => .awaitingHistory (loadHistoryStart s1) data.id

/-- The function `handleGenerateClick` from the end of `loadHistory` on. -/
def generateAfterHistory (s : State) (id : JsVal) (h : HistoryResponse) : State :=
  generateFinally (setActiveHistoryItem (loadHistoryResume s h) id)

/-- The function `handleGenerateClick`, run without interruption: `r` is the
outcome of the generation call and `h` that of the history refresh. -/
def handleGenerateClick (s : State) (r : GenerateResponse) (h : HistoryResponse) :
    State :=
  let description := jsTrim s.descriptionValue
  if description = "" then
    { s with alerts := s.alerts ++ [Alert.text "Please describe your brand concept."] }
  else
    match generateAfterFetch (generateRequest (showLoading s) description) r with
    | .done s1 => s1
    | .awaitingHistory s1 id => generateAfterHistory s1 id h

/-! ## Audio playback -/

/-- Outcome of `POST /api/tts`, up to `await response.blob()`. -/
inductive TtsResponse where
  | rejected
  | notOk (body : ErrorBody)
  | okUnreadable
  | ok
  deriving DecidableEq, Repr

/-- The function `stopCurrentAudio`. -/
def stopCurrentAudio (s : State) : State :=
  let s1 :=
    match s.currentAudio with
    | some a => { s with playing := s.playing.filter (fun x => x != a), currentAudio := none }
    | none => s
  match s1.currentlyPlayingButton with
  | some b =>
    { s1 with stopIcons := s1.stopIcons.filter (fun x => x != b),
              currentlyPlayingButton := none }
  | none => s1

/-- The function `handleTTS(button)` up to `await fetch('/api/tts', ..)`;
`text` is `button.dataset.text`. -/
def handleTTS (s : State) (button : Nat) (text : String) : State :=
  if s.currentlyPlayingButton = some button then stopCurrentAudio s
  else
    let s1 := stopCurrentAudio s
    { s1 with currentlyPlayingButton := some button,
              stopIcons := button :: s1.stopIcons.filter (fun x => x != button),
              pendingTTS := s1.pendingTTS + 1,
              network := s1.network ++ [Request.tts text] }

/-- The function `handleTTS` from the delivery of the response on, for one of
the suspended calls. -/
def ttsResume (s : State) (r : TtsResponse) : State :=
  if s.pendingTTS = 0 then s
  else
    let s0 := { s with pendingTTS := s.pendingTTS - 1 }
    match r with
    | .ok =>
      { s0 with currentAudio := some s0.nextAudio,
                playing := s0.playing ++ [s0.nextAudio],
                nextAudio := s0.nextAudio + 1 }
    | .notOk (.parsed error) =>
      stopCurrentAudio
        { s0 with alerts := s0.alerts ++
            [Alert.text (orFallback error "TTS feature is part of the full product.")] }
    | _ => stopCurrentAudio s0

/-- The event `ended` on a playing `Audio` object, whose `onended` handler is
`stopCurrentAudio`. -/
def audioEnded (s : State) (a : Nat) : State :=
  if a ∈ s.playing then
    stopCurrentAudio { s with playing := s.playing.filter (fun x => x != a) }
  else s

/-! ## Persona chat -/

/-- Outcome of `POST /api/chat-with-persona`, up to `await response.json()`;
for a 2xx body that parses to an object, its `reply` and `error` members,
`none` when missing. -/
inductive ChatResponse where
  | rejected
  | notOk
  | okUnreadable
  | ok (reply : Option String) (error : Option String)
  deriving DecidableEq, Repr

/-- The function `appendChatMessage(text, sender)`: a bubble is the pair of
its text and its sender. Without a `chat-box` element it returns at once. -/
def appendChatMessage (s : State) (text sender : String) : State :=
  match s.chat with
  | none => s
  | some c => { s with chat := some { c with bubbles := c.bubbles ++ [(text, sender)] } }

/-- Where `handleChatSend` stands at its first suspension: it has returned at
the guard, it has thrown (no `chat-input` element), or it is suspended at
`await fetch(..)`. -/
inductive ChatProgress where
  | returned (s : State)
  | threw (s : State) (e : JsError)
  | awaiting (s : State)
  deriving DecidableEq, Repr

/-- The function `handleChatSend` up to `await fetch('/api/chat-with-persona', ..)`. -/
def chatSendStart (s : State) : ChatProgress :=
  match s.chat with
  | none => .threw s (.engine "TypeError")
  | some c =>
    let message := jsTrim c.inputValue
    match s.currentAnalysisData with
    | none => .returned s
    | some a =>
      if message = "" then .returned s
      else
        let s1 := appendChatMessage s message "user"
        .awaiting
          { s1 with
              chat := s1.chat.map fun c1 => { c1 with inputValue := "", inputDisabled := true },
              network := s1.network ++ [Request.chatWithPersona a message s1.lang] }

/-- The function `handleChatSend` from the delivery of the response on. -/
def chatSendResume (s : State) (r : ChatResponse) : State :=
  let s1 :=
    match r with
    | .ok reply error =>
      appendChatMessage s
        (orFallback reply (orFallback error "Sorry, I could not respond.")) "persona"
    | _ => appendChatMessage s "An error occurred." "persona"
  { s1 with chat := s1.chat.map fun c => { c with inputDisabled := false } }

/-- The function `handleChatSend`, run without interruption: the state it
leaves and the exception that escapes it, if any. -/
def handleChatSend (s : State) (r : ChatResponse) : State × Option JsError :=
  match chatSendStart s with
  | .returned s1 => (s1, none)
  | .threw s1 e => (s1, some e)
  | .awaiting s1 => (chatSendResume s1 r, none)

/-! ## Logo download -/

/-- Outcome of `GET /api/proxy-image`, up to `await response.blob()`. -/
inductive DownloadResponse where
  | rejected
  | notOk (statusText : String)
  | okUnreadable
  | ok
  deriving DecidableEq, Repr

/-- The template literal assigned to `link.download`: the file name, or the
`TypeError` of reading through a missing member. -/
def downloadFilename (current : Option Analysis) : Except JsError String :=
  match current with
  | none => .error (.engine "TypeError")
  | some a =>
    match a.brand_names with
    | none => .error (.engine "TypeError")
    | some [] => .error (.engine "TypeError")
    | some (first :: _) =>
      let seed := jsReplaceWs first (Char.ofNat 95)
      .ok ("logo_" ++ (if seed = "" then "brand" else seed) ++ ".png")

/-- The function `handleDownloadLogo` up to `await fetch(proxyUrl)`; `logoSrc`
is `logoImg.src`, from which the proxy URL is built. -/
def downloadRequest (s : State) (logoSrc : String) : State :=
  { s with network := s.network ++ [Request.proxyImage logoSrc] }

/-- The `catch` block of `handleDownloadLogo`. -/
def downloadCatch (s : State) (e : JsError) : State :=
  { s with alerts := s.alerts ++ [Alert.textWithMessage "Could not download the logo: " e] }

/-- The function `handleDownloadLogo` from the delivery of the response on:
the state it leaves and the file name of the download it triggered, if any.
The `finally` block restores the button. -/
def downloadResume (s : State) (r : DownloadResponse) : State × Option String :=
  match r with
  | .rejected => (downloadCatch s (.engine "TypeError"), none)
  | .notOk statusText =>
    (downloadCatch s (.error ("Failed to fetch image: " ++ statusText)), none)
  | .okUnreadable => (downloadCatch s (.engine "TypeError"), none)
  | .ok =>
    match downloadFilename s.currentAnalysisData with
    | .ok name => (s, some name)
    | .error e => (downloadCatch s e, none)

/-- The function `handleDownloadLogo`, run without interruption; `logoImg` is
the `src` of the element `main-logo-img`, `none` when there is no such
element. -/
def handleDownloadLogo (s : State) (logoImg : Option String) (r : DownloadResponse) :
    State × Option String :=
  match logoImg with
  | none => (s, none)
  | some src => downloadResume (downloadRequest s src) r

/-! ## Font loading in sequence -/

/-- The element id `loadGoogleFont` computes for a font name. -/
def fontIdOf (fontName : String) : String :=
  "font-" ++ jsReplaceWs fontName (Char.ofNat 45)

/-- The `link` element `loadGoogleFont` creates for a font name. -/
def fontLinkOf (fontName : String) : FontLink :=
  { id := fontIdOf fontName,
    href := "https://fonts.googleapis.com/css2?family=" ++
            jsReplaceWs fontName (Char.ofNat 43) ++ ":wght@400;700&display=swap" }

/-- A sequence of `loadGoogleFont` calls, first name first. -/
def loadGoogleFonts (s : State) (names : List String) : State :=
  names.foldl loadGoogleFont s

/-- The labels `displayResults` reads from the translation table. -/
def labelsRead : List (Labels → String) :=
  [Labels.report_title, Labels.brand_archetype, Labels.tone_of_voice, Labels.core_values,
   Labels.logo_title, Labels.font_pairing_live, Labels.font_preview_heading_text,
   Labels.font_preview_body_text, Labels.heading, Labels.body, Labels.brand_story_title,
   Labels.brand_names_title, Labels.slogans_title, Labels.target_audience, Labels.age,
   Labels.occupation, Labels.interests, Labels.pain_points, Labels.chat_title,
   Labels.chat_placeholder]

/-! ## Sample data -/

/-- A complete analysis. -/
def sampleAnalysis : Analysis :=
  { brand_personality := some
      { archetype := "Caregiver", tone_of_voice := "Warm", values := some ["Care", "Nature"] },
    font_pairing := some { heading := .named "Playfair Display", body := .named "Open Sans" },
    target_audience_persona := some
      { name := "Maya", age_range := "25-34", occupation := "Designer",
        interests := some ["Coffee"], pain_points := some ["Waste"] },
    brand_names := some ["Green Bean", "EcoBrew"],
    slogans := some ["Sip kindly"],
    brand_story := "Born in a small roastery." }

/-- The page in the Input view, with an empty history and no playback. -/
def sampleInput : State :=
  { inputDisplay := "block", loaderDisplay := "none", outputDisplay := "none",
    descriptionValue := "", outputHtml := "", chat := none,
    rows := [], detached := [], nextNode := 0, fontLinks := [],
    sidebarOpen := false, overlayActive := false, menuHidden := false,
    lang := "en", currentAnalysisData := none, currentHistory := [],
    currentAudio := none, currentlyPlayingButton := none, playing := [],
    nextAudio := 0, stopIcons := [], pendingTTS := 0, network := [], alerts := [] }

/-- A cached entry with the given identifier and the sample analysis. -/
def sampleEntry (id : JsVal) : HistoryEntry :=
  { id := id, description := "eco-friendly coffee brand",
    analysis := some sampleAnalysis, logo_url := "/logos/1.png" }

/-- The Input view after a history refresh that served one entry. -/
def sampleWithEntry (id : JsVal) : State :=
  loadHistoryResume sampleInput (.ok [sampleEntry id])

/-- The Input view with a description typed in. -/
def sampleDescribed : State :=
  { sampleInput with descriptionValue := "eco-friendly coffee brand" }

/-- The analysis has every member the renderer reads through. -/
def Analysis.complete (a : Analysis) : Prop :=
  (∃ h b, a.font_pairing = some { heading := .named h, body := .named b }) ∧
  (∃ bp vs, a.brand_personality = some bp ∧ bp.values = some vs) ∧
  (∃ tp is ps, a.target_audience_persona = some tp ∧ tp.interests = some is ∧
    tp.pain_points = some ps) ∧
  (∃ ns, a.brand_names = some ns) ∧ (∃ sl, a.slogans = some sl)

/-- The generation call failed: `fetch` rejected, the status is not 2xx, the
2xx body cannot be read, or the analysis of the 2xx payload is missing or
lacks a member the renderer reads through. -/
def GenerateResponse.fails : GenerateResponse → Prop
  | .rejected => True
  | .notOk _ => True
  | .okUnreadable _ => True
  | .ok data => ¬ ∃ a, data.analysis = some a ∧ a.complete

/-- A rendered report whose chat input holds "hello", with no current
analysis: the state after a later `displayResults` threw on a missing
analysis. -/
def sampleChatNoAnalysis : State :=
  { (displayResults (displayResults sampleInput (some sampleAnalysis) "/logos/1.png").1
      none "").1 with
    chat := some { inputValue := "hello", inputDisabled := false, bubbles := [] } }

/-- A complete analysis with an empty list of brand names. -/
def sampleNoNames : Analysis :=
  { sampleAnalysis with brand_names := some [] }

/-- The number is a safe integer (`Number.isSafeInteger`): a double holds it
exactly, its string conversion is its plain decimal numeral, and `parseInt`
and `==` on it are exact. -/
def isSafeInteger (k : Int) : Bool := decide (k.natAbs < 2 ^ 53)

/-- The text holds neither `<` nor `"`: placed in the content of an element
or in a double-quoted attribute value of a template, it is parsed as text and
leaves the elements of the template as they are written. -/
def inertText (t : String) : Bool :=
  t.data.all fun c => c.toNat != 60 && c.toNat != 34

/-- The texts of an analysis that `displayResults` places in the template. -/
def Analysis.texts (a : Analysis) : List String :=
  [a.brand_story] ++
  (match a.brand_personality with
   | some bp => [bp.archetype, bp.tone_of_voice] ++ bp.values.getD []
   | none => []) ++
  (match a.font_pairing with
   | some fp =>
     (match fp.heading with
      | .named h => [h]
      | _ => []) ++
     (match fp.body with
      | .named b => [b]
      | _ => [])
   | none => []) ++
  (match a.target_audience_persona with
   | some tp =>
     [tp.name, tp.age_range, tp.occupation] ++ tp.interests.getD [] ++ tp.pain_points.getD []
   | none => []) ++
  a.brand_names.getD [] ++ a.slogans.getD []

/-- Every text of the analysis is inert: the markup `displayResults` writes
is then parsed into the elements of the template, and the three lookups that
attach the listeners (lines 329-331) find their elements. -/
def Analysis.inert (a : Analysis) : Prop := a.texts.all inertText = true

/-- The entry has a safe-integer identifier and an inert description: the
row `loadHistory` builds for it has the identifier's decimal numeral as
`data-id` and holds its delete button. -/
def HistoryEntry.plain (e : HistoryEntry) : Prop :=
  (∃ k, e.id = JsVal.num k ∧ isSafeInteger k = true) ∧ inertText e.description = true

/-- The row is one `loadHistory` built from a plain entry, whatever its
marker and its fade. -/
def Row.plain (r : Row) : Prop :=
  ∃ e : HistoryEntry, e.plain ∧
    r = { renderRow r.node e with active := r.active, fading := r.fading }

/-! ## Properties of the view operations -/

section ViewLemmas

@[simp] theorem visible_none : visible "none" = false := by decide
@[simp] theorem visible_block : visible "block" = true := by decide
@[simp] theorem visible_flex : visible "flex" = true := by decide

@[simp] theorem setActive_inputDisplay (s : State) (id : JsVal) :
    (setActiveHistoryItem s id).inputDisplay = s.inputDisplay := rfl
@[simp] theorem setActive_loaderDisplay (s : State) (id : JsVal) :
    (setActiveHistoryItem s id).loaderDisplay = s.loaderDisplay := rfl
@[simp] theorem setActive_outputDisplay (s : State) (id : JsVal) :
    (setActiveHistoryItem s id).outputDisplay = s.outputDisplay := rfl
@[simp] theorem setActive_descriptionValue (s : State) (id : JsVal) :
    (setActiveHistoryItem s id).descriptionValue = s.descriptionValue := rfl
@[simp] theorem setActive_currentHistory (s : State) (id : JsVal) :
    (setActiveHistoryItem s id).currentHistory = s.currentHistory := rfl
@[simp] theorem setActive_currentAnalysisData (s : State) (id : JsVal) :
    (setActiveHistoryItem s id).currentAnalysisData = s.currentAnalysisData := rfl
@[simp] theorem setActive_outputHtml (s : State) (id : JsVal) :
    (setActiveHistoryItem s id).outputHtml = s.outputHtml := rfl
@[simp] theorem setActive_network (s : State) (id : JsVal) :
    (setActiveHistoryItem s id).network = s.network := rfl
@[simp] theorem setActive_alerts (s : State) (id : JsVal) :
    (setActiveHistoryItem s id).alerts = s.alerts := rfl
@[simp] theorem setActive_sidebarOpen (s : State) (id : JsVal) :
    (setActiveHistoryItem s id).sidebarOpen = s.sidebarOpen := rfl
theorem setActive_rows (s : State) (id : JsVal) :
    (setActiveHistoryItem s id).rows = s.rows.map fun el =>
      { el with active := classToggle el.active (activeForce id el.dataId) } := rfl

@[simp] theorem showInput_inputDisplay (s : State) :
    (showInputScreen s).inputDisplay = "block" := rfl
@[simp] theorem showInput_loaderDisplay (s : State) :
    (showInputScreen s).loaderDisplay = "none" := rfl
@[simp] theorem showInput_outputDisplay (s : State) :
    (showInputScreen s).outputDisplay = "none" := rfl
@[simp] theorem showInput_descriptionValue (s : State) :
    (showInputScreen s).descriptionValue = "" := rfl
@[simp] theorem showInput_currentHistory (s : State) :
    (showInputScreen s).currentHistory = s.currentHistory := rfl
@[simp] theorem showInput_network (s : State) :
    (showInputScreen s).network = s.network := rfl
@[simp] theorem showInput_alerts (s : State) :
    (showInputScreen s).alerts = s.alerts := rfl

/-- The call `setActiveHistoryItem(null)` inside `showInputScreen` clears every
marker. -/
theorem showInput_rows (s : State) :
    (showInputScreen s).rows = s.rows.map fun el => { el with active := false } := rfl

/-- What `loadGoogleFont` leaves as it is: everything but the font links. -/
theorem loadGoogleFont_frame (s : State) (f : String) :
    (loadGoogleFont s f).inputDisplay = s.inputDisplay ∧
    (loadGoogleFont s f).outputDisplay = s.outputDisplay ∧
    (loadGoogleFont s f).loaderDisplay = s.loaderDisplay ∧
    (loadGoogleFont s f).rows = s.rows ∧
    (loadGoogleFont s f).currentHistory = s.currentHistory ∧
    (loadGoogleFont s f).currentAnalysisData = s.currentAnalysisData ∧
    (loadGoogleFont s f).network = s.network ∧
    (loadGoogleFont s f).alerts = s.alerts ∧
    (loadGoogleFont s f).descriptionValue = s.descriptionValue ∧
    (loadGoogleFont s f).sidebarOpen = s.sidebarOpen ∧
    (loadGoogleFont s f).outputHtml = s.outputHtml ∧
    (loadGoogleFont s f).lang = s.lang := by
  simp only [loadGoogleFont]
  split <;> simp

/-- What `displayResults` leaves as it is, whether it returns or throws, and
its first assignment. -/
theorem displayResults_frame (s : State) (ad : Option Analysis) (url : String) :
    (displayResults s ad url).1.loaderDisplay = s.loaderDisplay ∧
    (displayResults s ad url).1.rows = s.rows ∧
    (displayResults s ad url).1.currentHistory = s.currentHistory ∧
    (displayResults s ad url).1.currentAnalysisData = ad ∧
    (displayResults s ad url).1.network = s.network ∧
    (displayResults s ad url).1.alerts = s.alerts ∧
    (displayResults s ad url).1.descriptionValue = s.descriptionValue ∧
    (displayResults s ad url).1.sidebarOpen = s.sidebarOpen := by
  have hf := loadGoogleFont_frame
  simp only [displayResults]
  repeat' split
  all_goals simp [hf]

/-- A normal return of `displayResults` hides the input panel and shows the
results panel; when it throws, both panels are as they were. -/
theorem displayResults_panels (s : State) (ad : Option Analysis) (url : String) :
    ((displayResults s ad url).2 = none →
      (displayResults s ad url).1.inputDisplay = "none" ∧
      (displayResults s ad url).1.outputDisplay = "flex") ∧
    ((displayResults s ad url).2 ≠ none →
      (displayResults s ad url).1.inputDisplay = s.inputDisplay ∧
      (displayResults s ad url).1.outputDisplay = s.outputDisplay) := by
  have hf := loadGoogleFont_frame
  simp only [displayResults]
  repeat' split
  all_goals simp [hf]

/-- On a complete analysis `displayResults` returns normally. -/
theorem displayResults_complete (s : State) (a : Analysis) (url : String)
    (hc : a.complete) : (displayResults s (some a) url).2 = none := by
  obtain ⟨⟨h, b, hfp⟩, ⟨bp, vs, hbp, hvs⟩, ⟨tp, is, ps, htp, his, hps⟩, ⟨ns, hns⟩, ⟨sl, hsl⟩⟩ := hc
  simp [displayResults, hfp, hbp, hvs, htp, his, hps, hns, hsl]

end ViewLemmas

/-! ## Generation: validation and the loader panel -/

section HistoryLemmas

/-- What `loadHistoryResume` leaves as it is. -/
theorem loadHistoryResume_frame (s : State) (h : HistoryResponse) :
    (loadHistoryResume s h).inputDisplay = s.inputDisplay ∧
    (loadHistoryResume s h).outputDisplay = s.outputDisplay ∧
    (loadHistoryResume s h).loaderDisplay = s.loaderDisplay ∧
    (loadHistoryResume s h).network = s.network ∧
    (loadHistoryResume s h).alerts = s.alerts := by
  cases h <;> simp [loadHistoryResume]

end HistoryLemmas

/-- C1: when the trimmed description is empty, `handleGenerateClick` leaves
the state as it was except for one new alert: no network call is issued, and
the three panel displays, the description field, the current analysis, the
cached history and the history rows are unchanged. -/
theorem handleGenerateClick_blank (s : State) (r : GenerateResponse) (h : HistoryResponse)
    (hblank : jsTrim s.descriptionValue = "") :
    handleGenerateClick s r h =
      { s with alerts := s.alerts ++ [Alert.text "Please describe your brand concept."] } ∧
    (handleGenerateClick s r h).network = s.network ∧
    (handleGenerateClick s r h).alerts.length = s.alerts.length + 1 ∧
    (handleGenerateClick s r h).inputDisplay = s.inputDisplay ∧
    (handleGenerateClick s r h).loaderDisplay = s.loaderDisplay ∧
    (handleGenerateClick s r h).outputDisplay = s.outputDisplay ∧
    (handleGenerateClick s r h).descriptionValue = s.descriptionValue ∧
    (handleGenerateClick s r h).currentAnalysisData = s.currentAnalysisData ∧
    (handleGenerateClick s r h).currentHistory = s.currentHistory ∧
    (handleGenerateClick s r h).rows = s.rows := by
  simp [handleGenerateClick, hblank]

/-- A whitespace-only description is rejected: one alert, no request. -/
theorem handleGenerateClick_blank_witness :
    jsTrim ({ sampleInput with descriptionValue := " \t\n " }).descriptionValue = "" ∧
    (handleGenerateClick { sampleInput with descriptionValue := " \t\n " }
      GenerateResponse.rejected HistoryResponse.rejected).network = [] :=
  ⟨by decide,
   (handleGenerateClick_blank { sampleInput with descriptionValue := " \t\n " }
      GenerateResponse.rejected HistoryResponse.rejected (by decide)).2.1⟩

/-- C2: when the trimmed description is not empty, `handleGenerateClick` first
shows the loader panel alone (the state in which it suspends at the generation
call), and for every outcome of that call and of the history refresh it ends
with the loader panel hidden and exactly one of the results panel and the
input panel shown. -/
theorem handleGenerateClick_loader (s : State) (r : GenerateResponse) (h : HistoryResponse)
    (hne : jsTrim s.descriptionValue ≠ "") :
    (visible (generateRequest (showLoading s) (jsTrim s.descriptionValue)).loaderDisplay = true ∧
     visible (generateRequest (showLoading s) (jsTrim s.descriptionValue)).inputDisplay = false ∧
     visible (generateRequest (showLoading s) (jsTrim s.descriptionValue)).outputDisplay = false) ∧
    handleGenerateClick s r h =
      (match generateAfterFetch
          (generateRequest (showLoading s) (jsTrim s.descriptionValue)) r with
       | .done s1 => s1
       | .awaitingHistory s1 id => generateAfterHistory s1 id h) ∧
    visible (handleGenerateClick s r h).loaderDisplay = false ∧
    ((visible (handleGenerateClick s r h).outputDisplay = true ∧
      visible (handleGenerateClick s r h).inputDisplay = false) ∨
     (visible (handleGenerateClick s r h).outputDisplay = false ∧
      visible (handleGenerateClick s r h).inputDisplay = true)) := by
  refine ⟨⟨rfl, rfl, rfl⟩, by simp [handleGenerateClick, hne], ?_⟩
  simp only [handleGenerateClick, hne, if_false]
  generalize generateRequest (showLoading s) (jsTrim s.descriptionValue) = s0
  cases r with
  | rejected => simp [generateAfterFetch, generateFinally, generateCatch]
  | notOk body => cases body <;> simp [generateAfterFetch, generateFinally, generateCatch]
  | okUnreadable kind => simp [generateAfterFetch, generateFinally, generateCatch]
  | ok data =>
    have hp := displayResults_panels s0 data.analysis data.logo_url
    simp only [generateAfterFetch]
    rcases hd : displayResults s0 data.analysis data.logo_url with ⟨s1, _ | e⟩
    · rw [hd] at hp
      obtain ⟨hin, hout⟩ := hp.1 rfl
      simp only at hin hout
      cases h <;>
        simp [generateAfterHistory, generateFinally, loadHistoryResume, loadHistoryStart,
          hin, hout]
    · simp [generateFinally, generateCatch]

/-- A described brand whose generation call is rejected: the run ends in the
Input view with the loader hidden. -/
theorem handleGenerateClick_loader_witness :
    jsTrim ({ sampleInput with descriptionValue := "eco-friendly coffee brand" }).descriptionValue
      ≠ "" ∧
    visible (handleGenerateClick
      { sampleInput with descriptionValue := "eco-friendly coffee brand" }
      GenerateResponse.rejected HistoryResponse.rejected).loaderDisplay = false :=
  ⟨by decide,
   (handleGenerateClick_loader
      { sampleInput with descriptionValue := "eco-friendly coffee brand" }
      GenerateResponse.rejected HistoryResponse.rejected (by decide)).2.2.1⟩

/-! ## The three views -/

/-- C3, as stated, fails: while the loader panel is shown, `displayResults` on
a complete analysis returns normally and shows the results panel, and the
loader panel is still shown. -/
theorem displayResults_keeps_loader :
    (displayResults (showLoading sampleInput) (some sampleAnalysis) "/logos/1.png").2 = none ∧
    visible (displayResults (showLoading sampleInput) (some sampleAnalysis)
      "/logos/1.png").1.outputDisplay = true ∧
    visible (displayResults (showLoading sampleInput) (some sampleAnalysis)
      "/logos/1.png").1.loaderDisplay = true := by
  refine ⟨by decide, by decide, by decide⟩

/-- C3, amended: `showInputScreen` leaves only the input panel shown and the
switch to the loading view only the loader panel; `displayResults` on a
complete analysis returns normally, shows the results panel and hides the
input panel, and leaves the display of the loader panel as it was. -/
theorem view_operations (s : State) (a : Analysis) (url : String) (hc : a.complete) :
    (visible (showInputScreen s).inputDisplay = true ∧
     visible (showInputScreen s).loaderDisplay = false ∧
     visible (showInputScreen s).outputDisplay = false) ∧
    (visible (showLoading s).loaderDisplay = true ∧
     visible (showLoading s).inputDisplay = false ∧
     visible (showLoading s).outputDisplay = false) ∧
    ((displayResults s (some a) url).2 = none ∧
     visible (displayResults s (some a) url).1.outputDisplay = true ∧
     visible (displayResults s (some a) url).1.inputDisplay = false ∧
     (displayResults s (some a) url).1.loaderDisplay = s.loaderDisplay) := by
  have hret := displayResults_complete s a url hc
  have hp := (displayResults_panels s (some a) url).1 hret
  have hf := displayResults_frame s (some a) url
  refine ⟨⟨rfl, rfl, rfl⟩, ⟨rfl, rfl, rfl⟩, hret, ?_, ?_, hf.1⟩
  · rw [hp.2]; rfl
  · rw [hp.1]; rfl

/-- The sample analysis is complete, and rendering it from the Input view
leaves the results panel as the only one shown. -/
theorem view_operations_witness :
    sampleAnalysis.complete ∧
    visible (displayResults sampleInput (some sampleAnalysis) "/logos/1.png").1.outputDisplay
      = true :=
  ⟨⟨⟨_, _, rfl⟩, ⟨_, _, rfl, rfl⟩, ⟨_, _, _, rfl, rfl, rfl⟩, ⟨_, rfl⟩, ⟨_, rfl⟩⟩,
   (view_operations sampleInput sampleAnalysis "/logos/1.png"
      ⟨⟨_, _, rfl⟩, ⟨_, _, rfl, rfl⟩, ⟨_, _, _, rfl, rfl, rfl⟩, ⟨_, rfl⟩, ⟨_, rfl⟩⟩).2.2.2.1⟩

/-! ## Identifiers: number to text and back -/

section IdLemmas

theorem radixDigitVal_digit (d : Nat) (hd : d < 10) :
    radixDigitVal 10 (Char.ofNat (48 + d)) = some d := by
  interval_cases d <;> rfl

theorem jsIsWhitespace_digit (d : Nat) (hd : d < 10) :
    jsIsWhitespace (Char.ofNat (48 + d)) = false := by
  interval_cases d <;> rfl

theorem readSign_digit (d : Nat) (hd : d < 10) (tl : List Char) :
    readSign (Char.ofNat (48 + d) :: tl) = (false, Char.ofNat (48 + d) :: tl) := by
  interval_cases d <;> rfl

/-- The numeral written by `natDigitsAux` starts with a digit and reads back,
digit by digit, as the number it was written from. -/
theorem natDigitsAux_read (fuel : Nat) : ∀ (n : Nat) (acc : List Char),
    n < 10 ^ (fuel + 1) →
    ∃ (k d : Nat) (tl : List Char), d < 10 ∧
      natDigitsAux (fuel + 1) n acc = Char.ofNat (48 + d) :: tl ∧
      ∀ a c, readDigits 10 a c (natDigitsAux (fuel + 1) n acc) =
        readDigits 10 (a * 10 ^ (k + 1) + n) (c + (k + 1)) acc := by
  induction fuel with
  | zero =>
    intro n acc hn
    have hn10 : n < 10 := by simpa using hn
    have hmod : n % 10 = n := Nat.mod_eq_of_lt hn10
    refine ⟨0, n, acc, hn10, ?_, ?_⟩
    · simp [natDigitsAux, hmod]
    · intro a c
      simp [natDigitsAux, hmod, readDigits, radixDigitVal_digit n hn10]
  | succ fuel ih =>
    intro n acc hn
    by_cases hdiv : n / 10 = 0
    · have hn10 : n < 10 := by omega
      have hmod : n % 10 = n := Nat.mod_eq_of_lt hn10
      refine ⟨0, n, acc, hn10, ?_, ?_⟩
      · rw [natDigitsAux]; simp [hdiv, hmod]
      · intro a c
        rw [natDigitsAux]
        simp [hdiv, hmod, readDigits, radixDigitVal_digit n hn10]
    · have hq : n / 10 < 10 ^ (fuel + 1) := by
        have : n < 10 ^ (fuel + 1) * 10 := by simpa [pow_succ] using hn
        omega
      have hlt : n % 10 < 10 := Nat.mod_lt _ (by norm_num)
      obtain ⟨k, d, tl, hd, hhead, hread⟩ :=
        ih (n / 10) (Char.ofNat (48 + n % 10) :: acc) hq
      have hstep : natDigitsAux (fuel + 1 + 1) n acc =
          natDigitsAux (fuel + 1) (n / 10) (Char.ofNat (48 + n % 10) :: acc) := by
        rw [natDigitsAux]; simp [hdiv]
      refine ⟨k + 1, d, tl, hd, ?_, ?_⟩
      · rw [hstep, hhead]
      · intro a c
        rw [hstep, hread, readDigits]
        simp only [radixDigitVal_digit (n % 10) hlt]
        have hval : (a * 10 ^ (k + 1) + n / 10) * 10 + n % 10 =
            a * 10 ^ (k + 1 + 1) + n := by
          have := Nat.div_add_mod n 10
          rw [pow_succ 10 (k + 1)]
          nlinarith
        rw [hval]
        have hcnt : c + (k + 1) + 1 = c + (k + 1 + 1) := by omega
        rw [hcnt]

/-- The numeral of a natural number reads back as that number. -/
theorem natToDecimal_read (n : Nat) :
    ∃ (k d : Nat) (tl : List Char), d < 10 ∧
      natToDecimal n = Char.ofNat (48 + d) :: tl ∧
      readDigits 10 0 0 (natToDecimal n) = (n, k + 1, []) := by
  have hn : n < 10 ^ (n + 1) :=
    lt_of_lt_of_le (Nat.lt_pow_self (by norm_num) n)
      (Nat.pow_le_pow_right (by norm_num) (Nat.le_succ n))
  obtain ⟨k, d, tl, hd, hhead, hread⟩ := natDigitsAux_read n n [] hn
  refine ⟨k, d, tl, hd, hhead, ?_⟩
  unfold natToDecimal
  rw [hread]
  simp [readDigits]

/-- Round trip: `parseInt(String(k), 10)` is `k` for every integer `k`. -/
theorem jsParseInt10_intToDecimal (k : Int) : jsParseInt10 (intToDecimal k) = some k := by
  cases k with
  | ofNat n =>
    obtain ⟨j, d, tl, hd, hhead, hread⟩ := natToDecimal_read n
    have hws : dropLeadingWs (natToDecimal n) = natToDecimal n := by
      rw [hhead]; simp [dropLeadingWs, jsIsWhitespace_digit d hd]
    have hsign : readSign (natToDecimal n) = (false, natToDecimal n) := by
      rw [hhead]; exact readSign_digit d hd tl
    simp [jsParseInt10, intToDecimal, hws, hsign, hread]
  | negSucc n =>
    obtain ⟨j, d, tl, hd, hhead, hread⟩ := natToDecimal_read (n + 1)
    have hws : dropLeadingWs (Char.ofNat 45 :: natToDecimal (n + 1)) =
        Char.ofNat 45 :: natToDecimal (n + 1) := by
      rw [dropLeadingWs]
      have : jsIsWhitespace (Char.ofNat 45) = false := by rfl
      simp [this]
    have hsign : readSign (Char.ofNat 45 :: natToDecimal (n + 1)) =
        (true, natToDecimal (n + 1)) := by
      rw [readSign]
      have : (Char.ofNat 45).toNat = 45 := by rfl
      simp [this]
    simp only [jsParseInt10, intToDecimal, hws, hsign, hread]
    simp [Int.negSucc_eq]

/-- The marker `setActiveHistoryItem(n)` gives a row rendered from the number
`k`, for a number `n` other than zero: set exactly when `k` is `n`. -/
theorem activeForce_number (n k : Int) (hn : n ≠ 0) :
    activeForce (.num n) (JsVal.num k).toJsString = some (decide (JsVal.num k = JsVal.num n)) := by
  by_cases h : k = n <;>
    simp [activeForce, JsVal.truthy, hn, JsVal.toJsString, jsParseInt10_intToDecimal,
      parsedStrictEq, h]

/-- On number identifiers loose equality is equality. -/
theorem looseEq_number (v : JsVal) (n : Int) (hv : ∃ k, v = .num k) :
    v.looseEq (.num n) = decide (v = .num n) := by
  obtain ⟨k, rfl⟩ := hv
  by_cases h : k = n <;> simp [JsVal.looseEq, h]

theorem find?_congr_mem {α : Type} (p q : α → Bool) :
    ∀ (l : List α), (∀ x ∈ l, p x = q x) → l.find? p = l.find? q
  | [], _ => rfl
  | x :: xs, h => by
    have hx : p x = q x := h x (List.mem_cons_self x xs)
    have ih := find?_congr_mem p q xs (fun y hy => h y (List.mem_cons_of_mem x hy))
    simp [List.find?, hx, ih]

/-- What `renderRows` produces, row by row. -/
theorem renderRows_mem (entries : List HistoryEntry) : ∀ (start : Nat) (r : Row),
    r ∈ renderRows start entries →
    ∃ e ∈ entries, r.itemId = e.id ∧ r.dataId = e.id.toJsString ∧ r.active = false ∧
      start ≤ r.node := by
  induction entries with
  | nil => intro start r hr; simp [renderRows] at hr
  | cons e es ih =>
    intro start r hr
    simp only [renderRows, List.mem_cons] at hr
    rcases hr with rfl | hr
    · exact ⟨e, List.mem_cons_self e es, rfl, rfl, rfl, le_refl _⟩
    · obtain ⟨e1, he1, h1, h2, h3, h4⟩ := ih (start + 1) r hr
      exact ⟨e1, List.mem_cons_of_mem e he1, h1, h2, h3, by omega⟩

theorem renderRows_itemIds (entries : List HistoryEntry) : ∀ (start : Nat),
    (renderRows start entries).map (fun r => r.itemId) = entries.map (fun e => e.id) := by
  induction entries with
  | nil => intro start; rfl
  | cons e es ih => intro start; simp [renderRows, renderRow, ih (start + 1)]

end IdLemmas

/-! ## Selecting a history entry -/

theorem sampleAnalysis_inert : sampleAnalysis.inert := by
  unfold Analysis.inert
  decide

theorem sampleEntry_plain (k : Int) (hk : isSafeInteger k = true) :
    (sampleEntry (.num k)).plain :=
  ⟨⟨k, rfl, hk⟩, (by decide : inertText "eco-friendly coffee brand" = true)⟩

theorem sampleAnalysis_complete : sampleAnalysis.complete :=
  ⟨⟨_, _, rfl⟩, ⟨_, _, rfl, rfl⟩, ⟨_, _, _, rfl, rfl, rfl⟩, ⟨_, rfl⟩, ⟨_, rfl⟩⟩

/-- The markup `displayResults` writes for a complete analysis: the template
filled from the labels of the document language, the logo URL and the members
of the analysis. -/
theorem displayResults_html (s : State) (a : Analysis) (url : String) (hc : a.complete) :
    ∃ hf bf bp vs ns sl tp is ps,
      a.font_pairing = some { heading := .named hf, body := .named bf } ∧
      a.brand_personality = some bp ∧ bp.values = some vs ∧
      a.brand_names = some ns ∧ a.slogans = some sl ∧
      a.target_audience_persona = some tp ∧ tp.interests = some is ∧
      tp.pain_points = some ps ∧
      (displayResults s (some a) url).1.outputHtml =
        resultsHtml (getTranslations s.lang) url hf bf bp vs a.brand_story ns sl tp is ps := by
  obtain ⟨⟨h, b, hfp⟩, ⟨bp, vs, hbp, hvs⟩, ⟨tp, is, ps, htp, his, hps⟩, ⟨ns, hns⟩, ⟨sl, hsl⟩⟩ := hc
  refine ⟨h, b, bp, vs, ns, sl, tp, is, ps, hfp, hbp, hvs, hns, hsl, htp, his, hps, ?_⟩
  simp [displayResults, hfp, hbp, hvs, htp, his, hps, hns, hsl]

/-- Closing the sidebar, when it is open, leaves the rows, the current
analysis and the panels as they are. -/
theorem closeSidebar_frame (s2 : State) :
    (if s2.sidebarOpen = true then toggleSidebar s2 else s2).rows = s2.rows ∧
    (if s2.sidebarOpen = true then toggleSidebar s2 else s2).currentAnalysisData =
      s2.currentAnalysisData ∧
    (if s2.sidebarOpen = true then toggleSidebar s2 else s2).outputHtml = s2.outputHtml ∧
    (if s2.sidebarOpen = true then toggleSidebar s2 else s2).outputDisplay = s2.outputDisplay ∧
    (if s2.sidebarOpen = true then toggleSidebar s2 else s2).inputDisplay = s2.inputDisplay := by
  split <;> simp [toggleSidebar]

/-- C4, as stated, fails for a string identifier and for the identifier 0:
with one cached entry and its row, `displayHistoryItem` finds the entry and
renders it, and the row of that entry is left without the active marker. -/
theorem displayHistoryItem_unmarked :
    ((displayHistoryItem (sampleWithEntry (.str "7")) (.str "7")).2 = none ∧
     (displayHistoryItem (sampleWithEntry (.str "7")) (.str "7")).1.currentAnalysisData
       = some sampleAnalysis ∧
     (displayHistoryItem (sampleWithEntry (.str "7")) (.str "7")).1.rows.map
       (fun r => (r.itemId, r.active)) = [(.str "7", false)]) ∧
    ((displayHistoryItem (sampleWithEntry (.num 0)) (.num 0)).2 = none ∧
     (displayHistoryItem (sampleWithEntry (.num 0)) (.num 0)).1.currentAnalysisData
       = some sampleAnalysis ∧
     (displayHistoryItem (sampleWithEntry (.num 0)) (.num 0)).1.rows.map
       (fun r => (r.itemId, r.active)) = [(.num 0, false)]) := by
  refine ⟨⟨by decide, by decide, by decide⟩, ⟨by decide, by decide, by decide⟩⟩

/-- C4, amended: when the cached identifiers are safe integers and every row
is one `loadHistory` built from an entry with a safe-integer identifier and a
description without markup, then for a safe integer `n` other than 0 that is
the identifier of a cached entry, `item` being the first such entry, its
analysis complete and its texts and logo URL without markup,
`displayHistoryItem(n)` returns normally, makes that analysis the current one,
writes the results panel from that analysis and the logo URL of the entry,
shows the results panel and hides the input panel, and leaves the active
marker on exactly the rows whose identifier is `n`. The hypotheses on safe
integers and on markup delimit the inputs on which the embedding follows the
code: numbers a double holds exactly, and texts the HTML parser keeps as
text. -/
theorem displayHistoryItem_number (s : State) (n : Int) (item : HistoryEntry) (a : Analysis)
    (hn : n ≠ 0) (hsafe : isSafeInteger n = true)
    (hcache : ∀ e ∈ s.currentHistory, ∃ k, e.id = JsVal.num k ∧ isSafeInteger k = true)
    (hrows : ∀ r ∈ s.rows, r.plain)
    (hfirst : s.currentHistory.find? (fun e => decide (e.id = JsVal.num n)) = some item)
    (ha : item.analysis = some a) (hc : a.complete)
    (hinert : a.inert) (hurl : inertText item.logo_url = true) :
    (displayHistoryItem s (.num n)).2 = none ∧
    (displayHistoryItem s (.num n)).1.currentAnalysisData = some a ∧
    (∃ hf bf bp vs ns sl tp is ps,
      a.font_pairing = some { heading := .named hf, body := .named bf } ∧
      a.brand_personality = some bp ∧ bp.values = some vs ∧
      a.brand_names = some ns ∧ a.slogans = some sl ∧
      a.target_audience_persona = some tp ∧ tp.interests = some is ∧
      tp.pain_points = some ps ∧
      (displayHistoryItem s (.num n)).1.outputHtml =
        resultsHtml (getTranslations s.lang) item.logo_url hf bf bp vs a.brand_story
          ns sl tp is ps) ∧
    visible (displayHistoryItem s (.num n)).1.outputDisplay = true ∧
    visible (displayHistoryItem s (.num n)).1.inputDisplay = false ∧
    (displayHistoryItem s (.num n)).1.rows =
      s.rows.map (fun r => { r with active := decide (r.itemId = JsVal.num n) }) := by
  have hcache : ∀ e ∈ s.currentHistory, ∃ k, e.id = JsVal.num k := fun e he =>
    (hcache e he).imp fun _ h => h.1
  have hrows : ∀ r ∈ s.rows, ∃ k, r.itemId = JsVal.num k ∧
      r.dataId = (JsVal.num k).toJsString := by
    intro r hr
    obtain ⟨e, ⟨⟨k, hk, -⟩, -⟩, hre⟩ := hrows r hr
    have h1 : r.itemId = e.id := congrArg Row.itemId hre
    have h2 : r.dataId = e.id.toJsString := congrArg Row.dataId hre
    exact ⟨k, h1.trans hk, by rw [h2, hk]⟩
  have hfind : s.currentHistory.find? (fun h => h.id.looseEq (.num n)) = some item := by
    rw [find?_congr_mem _ (fun e => decide (e.id = JsVal.num n)) _
      (fun e he => looseEq_number e.id n (hcache e he))]
    exact hfirst
  have hret := displayResults_complete s a item.logo_url hc
  have hp := (displayResults_panels s (some a) item.logo_url).1 hret
  have hf := displayResults_frame s (some a) item.logo_url
  obtain ⟨hf', bf, bp, vs, ns, sl, tp, is, ps, h1, h2, h3, h4, h5, h6, h7, h8, hhtml⟩ :=
    displayResults_html s a item.logo_url hc
  have hmark : ∀ r ∈ s.rows,
      ({ r with active := classToggle r.active (activeForce (.num n) r.dataId) } : Row) =
      { r with active := decide (r.itemId = JsVal.num n) } := by
    intro r hr
    obtain ⟨k, hk, hd⟩ := hrows r hr
    rw [hd, activeForce_number n k hn, hk]
    rfl
  have hshape : displayHistoryItem s (.num n) =
      (let s2 := setActiveHistoryItem (displayResults s (some a) item.logo_url).1 (.num n)
       (if s2.sidebarOpen then toggleSidebar s2 else s2, none)) := by
    unfold displayHistoryItem
    rw [hfind]
    simp only [ha]
    rcases hd : displayResults s (some a) item.logo_url with ⟨s1, e⟩
    rw [hd] at hret
    simp only at hret
    subst hret
    rfl
  rw [hshape]
  have hrowsEq : (setActiveHistoryItem (displayResults s (some a) item.logo_url).1 (.num n)).rows
      = s.rows.map (fun r => { r with active := decide (r.itemId = JsVal.num n) }) := by
    rw [setActive_rows, hf.2.1]
    exact List.map_congr_left hmark
  have hside := closeSidebar_frame
    (setActiveHistoryItem (displayResults s (some a) item.logo_url).1 (.num n))
  simp only [setActive_currentAnalysisData, setActive_outputHtml, setActive_outputDisplay,
    setActive_inputDisplay, hrowsEq] at hside
  obtain ⟨hs1, hs2, hs3, hs4, hs5⟩ := hside
  refine ⟨rfl, ?_, ⟨hf', bf, bp, vs, ns, sl, tp, is, ps, h1, h2, h3, h4, h5, h6, h7, h8, ?_⟩,
    ?_, ?_, ?_⟩
  · exact hs2.trans hf.2.2.2.1
  · exact hs3.trans hhtml
  · simp only []
    rw [hs4, hp.2]; rfl
  · simp only []
    rw [hs5, hp.1]; rfl
  · exact hs1

/-- One cached entry with identifier 1, its row rendered: selecting it marks
the row. -/
theorem displayHistoryItem_number_witness :
    (1 : Int) ≠ 0 ∧ isSafeInteger 1 = true ∧ sampleAnalysis.inert ∧
    (displayHistoryItem (sampleWithEntry (.num 1)) (.num 1)).1.rows.map
      (fun r => (r.itemId, r.active)) = [(.num 1, true)] := by
  have h := displayHistoryItem_number (sampleWithEntry (.num 1)) 1 (sampleEntry (.num 1))
    sampleAnalysis (by decide) (by decide)
    (by
      intro e he
      have he1 : e = sampleEntry (.num 1) := List.mem_singleton.mp he
      subst he1
      exact ⟨1, rfl, by decide⟩)
    (by
      intro r hr
      have hr1 : r = renderRow 0 (sampleEntry (.num 1)) := List.mem_singleton.mp hr
      subst hr1
      exact ⟨sampleEntry (.num 1), sampleEntry_plain 1 (by decide), rfl⟩)
    (by decide) rfl sampleAnalysis_complete sampleAnalysis_inert (by decide)
  exact ⟨by decide, by decide, sampleAnalysis_inert, by rw [h.2.2.2.2.2]; decide⟩

/-! ## Generation: the new row -/

/-- C5, as stated, fails: with a string identifier, and with the identifier
0, the refreshed list has the row of the returned identifier and the row is
left without the active marker; and when the history refresh is answered with
an error status the list has no row for the returned identifier. -/
theorem handleGenerateClick_new_row_unmarked :
    (handleGenerateClick sampleDescribed
        (.ok { id := .str "1", analysis := some sampleAnalysis, logo_url := "/logos/1.png" })
        (.ok [sampleEntry (.str "1")])).rows.map (fun r => (r.itemId, r.active))
      = [(.str "1", false)] ∧
    (handleGenerateClick sampleDescribed
        (.ok { id := .num 0, analysis := some sampleAnalysis, logo_url := "/logos/1.png" })
        (.ok [sampleEntry (.num 0)])).rows.map (fun r => (r.itemId, r.active))
      = [(.num 0, false)] ∧
    ((handleGenerateClick sampleDescribed
        (.ok { id := .num 1, analysis := some sampleAnalysis, logo_url := "/logos/1.png" })
        .notOk).rows = [] ∧
     (handleGenerateClick sampleDescribed
        (.ok { id := .num 1, analysis := some sampleAnalysis, logo_url := "/logos/1.png" })
        .notOk).outputDisplay = "flex") := by
  refine ⟨by decide, by decide, by decide, by decide⟩

/-- The shape of a successful run of `handleGenerateClick`. -/
theorem handleGenerateClick_success (s : State) (id : JsVal) (a : Analysis) (url : String)
    (h : HistoryResponse) (hne : jsTrim s.descriptionValue ≠ "") (hc : a.complete) :
    handleGenerateClick s (.ok { id := id, analysis := some a, logo_url := url }) h =
      generateAfterHistory
        (loadHistoryStart (displayResults
          (generateRequest (showLoading s) (jsTrim s.descriptionValue)) (some a) url).1)
        id h := by
  have hret := displayResults_complete
    (generateRequest (showLoading s) (jsTrim s.descriptionValue)) a url hc
  simp only [handleGenerateClick, hne, if_false, generateAfterFetch]
  rcases hd : displayResults (generateRequest (showLoading s) (jsTrim s.descriptionValue))
    (some a) url with ⟨s1, e⟩
  rw [hd] at hret
  simp only at hret
  subst hret
  rfl

/-- C5, amended: after a successful generate whose response carries a safe
integer identifier `n` other than 0, a complete analysis and a logo URL, the
texts of both without markup, followed by a history refresh that succeeds
with a list of entries with safe-integer identifiers and descriptions without
markup, one of them with identifier `n`, the cached list is the served list,
the rows are those of the served entries in order, there is a row for `n`,
and a row carries the active marker exactly when its identifier is `n`. The
hypotheses on safe integers and on markup delimit the inputs on which the
embedding follows the code. -/
theorem handleGenerateClick_marks_new_row (s : State) (n : Int) (a : Analysis) (url : String)
    (entries : List HistoryEntry)
    (hne : jsTrim s.descriptionValue ≠ "") (hc : a.complete)
    (hinert : a.inert) (hurl : inertText url = true)
    (hn : n ≠ 0) (hsafe : isSafeInteger n = true)
    (hids : ∀ e ∈ entries, e.plain)
    (hmem : ∃ e ∈ entries, e.id = JsVal.num n) :
    (handleGenerateClick s (.ok { id := .num n, analysis := some a, logo_url := url })
      (.ok entries)).currentHistory = entries ∧
    (handleGenerateClick s (.ok { id := .num n, analysis := some a, logo_url := url })
      (.ok entries)).rows.map (fun r => r.itemId) = entries.map (fun e => e.id) ∧
    (∃ r ∈ (handleGenerateClick s (.ok { id := .num n, analysis := some a, logo_url := url })
      (.ok entries)).rows, r.itemId = JsVal.num n) ∧
    (∀ r ∈ (handleGenerateClick s (.ok { id := .num n, analysis := some a, logo_url := url })
      (.ok entries)).rows, r.active = true ↔ r.itemId = JsVal.num n) := by
  have hids : ∀ e ∈ entries, ∃ k, e.id = JsVal.num k := fun e he =>
    (hids e he).1.imp fun _ h => h.1
  rw [handleGenerateClick_success s (.num n) a url (.ok entries) hne hc]
  generalize (displayResults (generateRequest (showLoading s) (jsTrim s.descriptionValue))
    (some a) url).1 = s1
  have hrows : (generateAfterHistory (loadHistoryStart s1) (.num n) (.ok entries)).rows =
      (renderRows s1.nextNode entries).map fun el =>
        { el with active := classToggle el.active (activeForce (.num n) el.dataId) } := rfl
  have hids' : ((renderRows s1.nextNode entries).map fun el =>
      ({ el with active := classToggle el.active (activeForce (.num n) el.dataId) } : Row)).map
      (fun r => r.itemId) = entries.map (fun e => e.id) := by
    rw [List.map_map]
    exact renderRows_itemIds entries s1.nextNode
  refine ⟨rfl, ?_, ?_, ?_⟩
  · rw [hrows]; exact hids'
  · rw [hrows]
    obtain ⟨e, he, hen⟩ := hmem
    have hin : JsVal.num n ∈ entries.map (fun e => e.id) :=
      List.mem_map.mpr ⟨e, he, hen⟩
    rw [← hids'] at hin
    obtain ⟨r, hr, hrn⟩ := List.mem_map.mp hin
    exact ⟨r, hr, hrn⟩
  · rw [hrows]
    intro r hr
    obtain ⟨r0, hr0, rfl⟩ := List.mem_map.mp hr
    obtain ⟨e, he, hid, hdata, -, -⟩ := renderRows_mem entries s1.nextNode r0 hr0
    obtain ⟨k, hk⟩ := hids e he
    rw [hk] at hid hdata
    simp only [hdata, activeForce_number n k hn, classToggle, hid]
    simp

/-- The scenario of the description "eco-friendly coffee brand": identifier 1,
one served entry; its row ends up marked. -/
theorem handleGenerateClick_marks_new_row_witness :
    jsTrim sampleDescribed.descriptionValue ≠ "" ∧ inertText "/logos/1.png" = true ∧
    (handleGenerateClick sampleDescribed
        (.ok { id := .num 1, analysis := some sampleAnalysis, logo_url := "/logos/1.png" })
        (.ok [sampleEntry (.num 1)])).currentHistory = [sampleEntry (.num 1)] :=
  ⟨by decide, by decide,
   (handleGenerateClick_marks_new_row sampleDescribed 1 sampleAnalysis "/logos/1.png"
      [sampleEntry (.num 1)] (by decide) sampleAnalysis_complete sampleAnalysis_inert
      (by decide) (by decide) (by decide)
      (by
        intro e he
        have he1 : e = sampleEntry (.num 1) := List.mem_singleton.mp he
        subst he1
        exact sampleEntry_plain 1 (by decide))
      ⟨sampleEntry (.num 1), List.mem_singleton.mpr rfl, rfl⟩).1⟩

/-! ## Deleting a history entry -/

section DeleteLemmas

/-- The fade leaves a list of rows as it is when `element` is not among them. -/
theorem map_fade_of_absent (x : Nat) (rs : List Row) (h : ∀ y ∈ rs, y.node ≠ x) :
    rs.map (fadeElement x) = rs := by
  have hm : rs.map (fadeElement x) = rs.map id :=
    List.map_congr_left (fun y hy => by simp [fadeElement, h y hy])
  simpa using hm

/-- In a list of rows with distinct identities, the fade changes the row that
is `element` only: the lookup of the timer callback finds that row, and
removing it leaves the other rows as they were. -/
theorem fade_find_erase (x : Nat) : ∀ (rows : List Row) (el : Row),
    el ∈ rows → el.node = x → (rows.map (fun r => r.node)).Nodup →
    (rows.map (fadeElement x)).find? (fun r => r.node == x) = some (fadeElement x el) ∧
    (rows.map (fadeElement x)).eraseP (fun r => r.node == x) =
      rows.filter (fun r => r.node != x) := by
  intro rows
  induction rows with
  | nil => intro el hel; simp at hel
  | cons r rs ih =>
    intro el hel hx hnd
    rw [List.map_cons, List.nodup_cons] at hnd
    obtain ⟨hnotin, hnd'⟩ := hnd
    by_cases hr : r.node = x
    · have hrs : ∀ y ∈ rs, y.node ≠ x := by
        intro y hy hyx
        exact hnotin (List.mem_map.mpr ⟨y, hy, by rw [hyx, hr]⟩)
      have hel' : el = r := by
        rcases List.mem_cons.mp hel with h | h
        · exact h
        · exact absurd hx (hrs el h)
      subst hel'
      have hfr : (fadeElement x el).node = x := by simp [fadeElement, hr]
      have hfilter : rs.filter (fun r => r.node != x) = rs :=
        List.filter_eq_self.mpr (fun y hy => by simpa using hrs y hy)
      constructor
      · simp [List.find?, hfr]
      · rw [List.map_cons, List.eraseP_cons_of_pos (by simpa using hfr),
          map_fade_of_absent x rs hrs]
        simp [List.filter, hr, hfilter]
    · have hin : el ∈ rs := by
        rcases List.mem_cons.mp hel with h | h
        · subst h; exact absurd hx hr
        · exact h
      obtain ⟨ih1, ih2⟩ := ih el hin hx hnd'
      have hfade : fadeElement x r = r := by simp [fadeElement, hr]
      have hb : (r.node == x) = false := by simpa using hr
      have hb' : (r.node != x) = true := by simpa using hr
      constructor
      · rw [List.map_cons, hfade, List.find?_cons, hb]
        exact ih1
      · rw [List.map_cons, hfade, List.eraseP_cons_of_neg (by simpa using hr), ih2,
          List.filter_cons, hb']
        rfl

/-- The timer callback of `handleDeleteHistory` leaves the cache and the
network log as they are. -/
theorem deleteTimer_frame (s : State) (element : Nat) :
    (deleteTimer s element).currentHistory = s.currentHistory ∧
    (deleteTimer s element).network = s.network := by
  simp only [deleteTimer]
  repeat' split
  all_goals simp

end DeleteLemmas

/-- C6: for a row of the history list (the rows having distinct identities),
when the prompt is confirmed and the `DELETE` call returns 2xx, then after the
timer has fired one `DELETE` call was issued, the row is detached from the
list, and: if the row carried the active marker, the input panel is shown, the
loader and results panels are hidden, the description field is empty and no
row carries the marker; if it did not, the three panel displays, the
description field and the other rows with their markers are as they were. -/
theorem handleDeleteHistory_confirmed (s : State) (id : JsVal) (el : Row)
    (hmem : el ∈ s.rows) (hnodup : (s.rows.map (fun r => r.node)).Nodup) :
    (handleDeleteHistory s id el.node true .ok).network =
      s.network ++ [Request.deleteHistory id.toJsString] ∧
    (∀ r ∈ (handleDeleteHistory s id el.node true .ok).rows, r.node ≠ el.node) ∧
    (∃ d ∈ (handleDeleteHistory s id el.node true .ok).detached, d.node = el.node) ∧
    (el.active = true →
      visible (handleDeleteHistory s id el.node true .ok).inputDisplay = true ∧
      visible (handleDeleteHistory s id el.node true .ok).loaderDisplay = false ∧
      visible (handleDeleteHistory s id el.node true .ok).outputDisplay = false ∧
      (handleDeleteHistory s id el.node true .ok).descriptionValue = "" ∧
      (∀ r ∈ (handleDeleteHistory s id el.node true .ok).rows, r.active = false) ∧
      (handleDeleteHistory s id el.node true .ok).rows =
        (s.rows.filter (fun r => r.node != el.node)).map
          (fun r => { r with active := false })) ∧
    (el.active = false →
      (handleDeleteHistory s id el.node true .ok).inputDisplay = s.inputDisplay ∧
      (handleDeleteHistory s id el.node true .ok).loaderDisplay = s.loaderDisplay ∧
      (handleDeleteHistory s id el.node true .ok).outputDisplay = s.outputDisplay ∧
      (handleDeleteHistory s id el.node true .ok).descriptionValue = s.descriptionValue ∧
      (handleDeleteHistory s id el.node true .ok).rows =
        s.rows.filter (fun r => r.node != el.node)) := by
  obtain ⟨hfind, herase⟩ := fade_find_erase el.node s.rows el hmem rfl hnodup
  have hact : (fadeElement el.node el).active = el.active := by simp [fadeElement]
  have hnode : (fadeElement el.node el).node = el.node := by simp [fadeElement]
  have hshape : handleDeleteHistory s id el.node true .ok =
      (if el.active = true then
        showInputScreen
          { startFade (deleteRequest s id) el.node with
              rows := s.rows.filter (fun r => r.node != el.node),
              detached := (startFade (deleteRequest s id) el.node).detached ++
                [fadeElement el.node el] }
       else
          { startFade (deleteRequest s id) el.node with
              rows := s.rows.filter (fun r => r.node != el.node),
              detached := (startFade (deleteRequest s id) el.node).detached ++
                [fadeElement el.node el] }) := by
    simp only [handleDeleteHistory, deleteAfterResponse, deleteTimer, startFade,
      deleteRequest, if_true, hfind, herase, hact]
  rw [hshape]
  by_cases hel : el.active = true
  · rw [if_pos hel]
    refine ⟨rfl, ?_, ⟨fadeElement el.node el, by simp [showInputScreen, setActiveHistoryItem,
      startFade, deleteRequest], hnode⟩, fun _ => ⟨rfl, rfl, rfl, rfl, ?_, ?_⟩,
      fun h => absurd hel (by simp [h])⟩
    · intro r hr
      rw [showInput_rows] at hr
      obtain ⟨r0, hr0, rfl⟩ := List.mem_map.mp hr
      have := (List.mem_filter.mp hr0).2
      simpa using this
    · intro r hr
      rw [showInput_rows] at hr
      obtain ⟨r0, hr0, rfl⟩ := List.mem_map.mp hr
      rfl
    · rw [showInput_rows]
  · rw [if_neg hel]
    refine ⟨rfl, ?_, ⟨fadeElement el.node el, by simp [startFade, deleteRequest], hnode⟩,
      fun h => absurd h hel, fun _ => ⟨rfl, rfl, rfl, rfl, rfl⟩⟩
    intro r hr
    have := (List.mem_filter.mp hr).2
    simpa using this

/-- One active row, deleted: the list is empty and the Input view is shown. -/
theorem handleDeleteHistory_confirmed_witness :
    (handleDeleteHistory (displayHistoryItem (sampleWithEntry (.num 1)) (.num 1)).1
      (.num 1) 0 true .ok).rows = [] ∧
    visible (handleDeleteHistory (displayHistoryItem (sampleWithEntry (.num 1)) (.num 1)).1
      (.num 1) 0 true .ok).inputDisplay = true := by
  have h := handleDeleteHistory_confirmed
    (displayHistoryItem (sampleWithEntry (.num 1)) (.num 1)).1 (.num 1)
    { renderRow 0 (sampleEntry (.num 1)) with active := true } (by decide) (by decide)
  exact ⟨by decide, (h.2.2.2.1 rfl).1⟩

/-- C7: when the prompt is declined, `handleDeleteHistory` leaves the whole
state as it was: no network call, and the history rows with their markers,
the cached list and the panel displays unchanged. -/
theorem handleDeleteHistory_declined (s : State) (id : JsVal) (element : Nat)
    (r : DeleteResponse) :
    handleDeleteHistory s id element false r = s ∧
    (handleDeleteHistory s id element false r).network = s.network ∧
    (handleDeleteHistory s id element false r).rows = s.rows ∧
    (handleDeleteHistory s id element false r).currentHistory = s.currentHistory ∧
    (handleDeleteHistory s id element false r).inputDisplay = s.inputDisplay ∧
    (handleDeleteHistory s id element false r).loaderDisplay = s.loaderDisplay ∧
    (handleDeleteHistory s id element false r).outputDisplay = s.outputDisplay := by
  simp [handleDeleteHistory]

/-! ## The cached history list -/

/-- C8, as stated, fails: after a confirmed delete of the only entry, answered
with 2xx, the row is gone, the cached list still holds the entry, no history
fetch was issued, and `displayHistoryItem` for the deleted identifier renders
the entry. -/
theorem handleDeleteHistory_cache_stale :
    (handleDeleteHistory (sampleWithEntry (.num 1)) (.num 1) 0 true .ok).rows = [] ∧
    (handleDeleteHistory (sampleWithEntry (.num 1)) (.num 1) 0 true .ok).currentHistory
      = [sampleEntry (.num 1)] ∧
    (handleDeleteHistory (sampleWithEntry (.num 1)) (.num 1) 0 true .ok).network
      = [Request.deleteHistory "1"] ∧
    (handleDeleteHistory (sampleWithEntry (.num 1)) (.num 1) 0 true .ok).outputDisplay
      = "none" ∧
    (displayHistoryItem (handleDeleteHistory (sampleWithEntry (.num 1)) (.num 1) 0 true .ok)
      (.num 1)).1.outputDisplay = "flex" ∧
    (displayHistoryItem (handleDeleteHistory (sampleWithEntry (.num 1)) (.num 1) 0 true .ok)
      (.num 1)).1.currentAnalysisData = some sampleAnalysis := by
  refine ⟨by decide, by decide, by decide, by decide, by decide, by decide⟩

/-- What `handleDeleteHistory` leaves as it is, for every answer to the prompt
and every outcome of the call: the cached list and the document language. -/
theorem handleDeleteHistory_frame (s : State) (did : JsVal) (element : Nat)
    (confirmed : Bool) (r : DeleteResponse) :
    (handleDeleteHistory s did element confirmed r).currentHistory = s.currentHistory ∧
    (handleDeleteHistory s did element confirmed r).lang = s.lang := by
  have htimer : ∀ s1 : State, (deleteTimer s1 element).currentHistory = s1.currentHistory ∧
      (deleteTimer s1 element).lang = s1.lang := by
    intro s1
    simp only [deleteTimer]
    repeat' split
    all_goals exact ⟨rfl, rfl⟩
  cases confirmed <;> cases r <;>
    simp [handleDeleteHistory, deleteAfterResponse, deleteRequest, htimer, startFade]

/-- The run of `displayHistoryItem` when the lookup finds an entry with a
complete analysis: `displayResults`, then the marker, then the sidebar. -/
theorem displayHistoryItem_found (s : State) (id : JsVal) (item : HistoryEntry) (a : Analysis)
    (hfind : s.currentHistory.find? (fun h => h.id.looseEq id) = some item)
    (ha : item.analysis = some a) (hc : a.complete) :
    displayHistoryItem s id =
      (if (setActiveHistoryItem (displayResults s (some a) item.logo_url).1 id).sidebarOpen
          = true then
         toggleSidebar (setActiveHistoryItem (displayResults s (some a) item.logo_url).1 id)
       else setActiveHistoryItem (displayResults s (some a) item.logo_url).1 id, none) := by
  have hret := displayResults_complete s a item.logo_url hc
  unfold displayHistoryItem
  rw [hfind]
  simp only [ha]
  rcases hd : displayResults s (some a) item.logo_url with ⟨s1, e⟩
  rw [hd] at hret
  simp only at hret
  subst hret
  rfl

/-- C8, amended: the cached list is refetched after a successful create, and
not after a delete. A successful run of `handleGenerateClick` (complete
analysis, its texts and the logo URL without markup) issues the generation
call and then the history fetch, and the cached list becomes the served list.
`handleDeleteHistory`, for every answer to the prompt and every outcome of
the call, leaves the cached list as it was and issues no call but one
`DELETE`. So after it, for a safe integer `n` that is the identifier of a
cached entry (the cached identifiers being safe integers, `item` the first
such entry, its analysis complete and without markup), `displayHistoryItem(n)`
still finds the entry and renders it: it returns normally, the analysis of
the entry is the current one, the results panel is written from it and shown
and the input panel is hidden. -/
theorem currentHistory_refetch (s : State) (id : JsVal) (a : Analysis) (url : String)
    (entries : List HistoryEntry) (did : JsVal) (element : Nat) (confirmed : Bool)
    (r : DeleteResponse) (n : Int) (item : HistoryEntry) (b : Analysis)
    (hne : jsTrim s.descriptionValue ≠ "") (hc : a.complete)
    (hinert : a.inert) (hurl : inertText url = true)
    (hsafe : isSafeInteger n = true)
    (hcache : ∀ e ∈ s.currentHistory, ∃ k, e.id = JsVal.num k ∧ isSafeInteger k = true)
    (hfirst : s.currentHistory.find? (fun e => decide (e.id = JsVal.num n)) = some item)
    (hb : item.analysis = some b) (hbc : b.complete)
    (hbinert : b.inert) (hburl : inertText item.logo_url = true) :
    ((handleGenerateClick s (.ok { id := id, analysis := some a, logo_url := url })
        (.ok entries)).currentHistory = entries ∧
     (handleGenerateClick s (.ok { id := id, analysis := some a, logo_url := url })
        (.ok entries)).network =
       s.network ++ [Request.generateBrand (jsTrim s.descriptionValue) s.lang,
         Request.getHistory]) ∧
    ((handleDeleteHistory s did element confirmed r).currentHistory = s.currentHistory ∧
     ((handleDeleteHistory s did element confirmed r).network = s.network ∨
      ∃ t, (handleDeleteHistory s did element confirmed r).network =
        s.network ++ [Request.deleteHistory t])) ∧
    ((displayHistoryItem (handleDeleteHistory s did element confirmed r) (.num n)).2 = none ∧
     (displayHistoryItem (handleDeleteHistory s did element confirmed r)
       (.num n)).1.currentAnalysisData = some b ∧
     (∃ hf bf bp vs ns sl tp is ps,
       b.font_pairing = some { heading := .named hf, body := .named bf } ∧
       b.brand_personality = some bp ∧ bp.values = some vs ∧
       b.brand_names = some ns ∧ b.slogans = some sl ∧
       b.target_audience_persona = some tp ∧ tp.interests = some is ∧
       tp.pain_points = some ps ∧
       (displayHistoryItem (handleDeleteHistory s did element confirmed r)
         (.num n)).1.outputHtml =
         resultsHtml (getTranslations s.lang) item.logo_url hf bf bp vs b.brand_story
           ns sl tp is ps) ∧
     visible (displayHistoryItem (handleDeleteHistory s did element confirmed r)
       (.num n)).1.outputDisplay = true ∧
     visible (displayHistoryItem (handleDeleteHistory s did element confirmed r)
       (.num n)).1.inputDisplay = false) := by
  obtain ⟨hdel, hlang⟩ := handleDeleteHistory_frame s did element confirmed r
  refine ⟨⟨?_, ?_⟩, ⟨hdel, ?_⟩, ?_⟩
  · rw [handleGenerateClick_success s id a url (.ok entries) hne hc]
    rfl
  · rw [handleGenerateClick_success s id a url (.ok entries) hne hc]
    have hf := (displayResults_frame
      (generateRequest (showLoading s) (jsTrim s.descriptionValue)) (some a) url).2.2.2.2.1
    generalize (displayResults (generateRequest (showLoading s) (jsTrim s.descriptionValue))
      (some a) url).1 = s1 at hf ⊢
    show s1.network ++ [Request.getHistory] = _
    rw [hf]
    simp [generateRequest, showLoading]
  · cases confirmed <;> cases r <;>
      simp [handleDeleteHistory, deleteAfterResponse, deleteRequest, deleteTimer_frame,
        startFade]
  · generalize handleDeleteHistory s did element confirmed r = s1 at hdel hlang ⊢
    have hfind : s1.currentHistory.find? (fun h => h.id.looseEq (.num n)) = some item := by
      rw [hdel, find?_congr_mem _ (fun e => decide (e.id = JsVal.num n)) _
        (fun e he => looseEq_number e.id n ((hcache e he).imp fun _ h => h.1))]
      exact hfirst
    have hp := (displayResults_panels s1 (some b) item.logo_url).1
      (displayResults_complete s1 b item.logo_url hbc)
    have hf := displayResults_frame s1 (some b) item.logo_url
    obtain ⟨hf', bf, bp, vs, ns, sl, tp, is, ps, h1, h2, h3, h4, h5, h6, h7, h8, hhtml⟩ :=
      displayResults_html s1 b item.logo_url hbc
    rw [hlang] at hhtml
    have hside := closeSidebar_frame
      (setActiveHistoryItem (displayResults s1 (some b) item.logo_url).1 (.num n))
    simp only [setActive_currentAnalysisData, setActive_outputHtml, setActive_outputDisplay,
      setActive_inputDisplay] at hside
    obtain ⟨-, hs2, hs3, hs4, hs5⟩ := hside
    rw [displayHistoryItem_found s1 (.num n) item b hfind hb hbc]
    refine ⟨rfl, ?_, ⟨hf', bf, bp, vs, ns, sl, tp, is, ps, h1, h2, h3, h4, h5, h6, h7, h8, ?_⟩,
      ?_, ?_⟩
    · exact hs2.trans hf.2.2.2.1
    · exact hs3.trans hhtml
    · simp only []
      rw [hs4, hp.2]; rfl
    · simp only []
      rw [hs5, hp.1]; rfl

/-- The scenario "eco-friendly coffee brand": the successful create ends with
the served list cached; and after the only entry was deleted, selecting its
identifier still renders it. -/
theorem currentHistory_refetch_witness :
    jsTrim sampleDescribed.descriptionValue ≠ "" ∧
    (handleGenerateClick sampleDescribed
        (.ok { id := .num 1, analysis := some sampleAnalysis, logo_url := "/logos/1.png" })
        (.ok [sampleEntry (.num 1)])).network =
      [Request.generateBrand "eco-friendly coffee brand" "en", Request.getHistory] ∧
    (displayHistoryItem
      (handleDeleteHistory { sampleWithEntry (.num 1) with
          descriptionValue := "eco-friendly coffee brand" } (.num 1) 0 true .ok)
      (.num 1)).1.currentAnalysisData = some sampleAnalysis := by
  have h := currentHistory_refetch
    { sampleWithEntry (.num 1) with descriptionValue := "eco-friendly coffee brand" }
    (.num 1) sampleAnalysis "/logos/1.png" [sampleEntry (.num 1)] (.num 1) 0 true .ok
    1 (sampleEntry (.num 1)) sampleAnalysis
    (by decide) sampleAnalysis_complete sampleAnalysis_inert (by decide) (by decide)
    (by
      intro e he
      have he1 : e = sampleEntry (.num 1) := List.mem_singleton.mp he
      subst he1
      exact ⟨1, rfl, by decide⟩)
    (by decide) rfl sampleAnalysis_complete sampleAnalysis_inert (by decide)
  exact ⟨by decide, by decide, h.2.2.2.1⟩

/-! ## Audio playback -/

/-- What `stopCurrentAudio` establishes: no audio handle, no active control,
the audio that was current no longer playing and the control that was active
showing the speaker image. -/
theorem stopCurrentAudio_clears (s : State) :
    (stopCurrentAudio s).currentAudio = none ∧
    (stopCurrentAudio s).currentlyPlayingButton = none ∧
    (∀ a, s.currentAudio = some a → a ∉ (stopCurrentAudio s).playing) ∧
    (∀ b, s.currentlyPlayingButton = some b → b ∉ (stopCurrentAudio s).stopIcons) := by
  unfold stopCurrentAudio
  cases ha : s.currentAudio <;> cases hb : s.currentlyPlayingButton <;>
    simp [ha, hb, List.mem_filter]

/-- A click on control `b` while another control `a` is active: the audio of
`a` is paused and cleared and the icon of `a` is reset, and `b` is the active
control with the stop icon, with no audio handle yet. -/
theorem handleTTS_switch (s : State) (a b : Nat) (text : String) (hab : a ≠ b)
    (hactive : s.currentlyPlayingButton = some a) :
    (handleTTS s b text).currentlyPlayingButton = some b ∧
    (handleTTS s b text).currentAudio = none ∧
    (∀ x, s.currentAudio = some x → x ∉ (handleTTS s b text).playing) ∧
    a ∉ (handleTTS s b text).stopIcons ∧
    b ∈ (handleTTS s b text).stopIcons := by
  have hne : ¬ (s.currentlyPlayingButton = some b) := by
    rw [hactive]; simpa using hab
  have hc := stopCurrentAudio_clears s
  rw [handleTTS, if_neg hne]
  refine ⟨rfl, hc.1, hc.2.2.1, ?_, List.mem_cons_self _ _⟩
  intro hmem
  rcases List.mem_cons.mp hmem with h | h
  · exact hab h
  · exact hc.2.2.2 a hactive (List.mem_filter.mp h).1

/-- C9, on the code: control 1 is clicked, then control 2 while the request of
control 1 is pending, then both responses arrive with audio. Two `Audio`
objects are playing; the handle and the active control are those of control
2, and `stopCurrentAudio` leaves the first object playing. -/
theorem playback_two_audios :
    (ttsResume (ttsResume (handleTTS (handleTTS sampleInput 1 "Hello") 2 "World") .ok)
      .ok).playing = [0, 1] ∧
    (ttsResume (ttsResume (handleTTS (handleTTS sampleInput 1 "Hello") 2 "World") .ok)
      .ok).currentAudio = some 1 ∧
    (ttsResume (ttsResume (handleTTS (handleTTS sampleInput 1 "Hello") 2 "World") .ok)
      .ok).currentlyPlayingButton = some 2 ∧
    (stopCurrentAudio (ttsResume (ttsResume
      (handleTTS (handleTTS sampleInput 1 "Hello") 2 "World") .ok) .ok)).playing = [0] := by
  refine ⟨by decide, by decide, by decide, by decide⟩

/-- C10, on the code: control 1 is clicked twice while its request is pending,
then the response arrives with audio. The audio handle is set and the audio
is playing, while no control is active and control 1 shows the speaker
image. -/
theorem toggle_leaves_audio :
    (handleTTS (handleTTS sampleInput 1 "Hello") 1 "Hello").pendingTTS = 1 ∧
    (ttsResume (handleTTS (handleTTS sampleInput 1 "Hello") 1 "Hello") .ok).currentAudio
      = some 0 ∧
    (ttsResume (handleTTS (handleTTS sampleInput 1 "Hello") 1 "Hello") .ok).playing = [0] ∧
    (ttsResume (handleTTS (handleTTS sampleInput 1 "Hello") 1 "Hello")
      .ok).currentlyPlayingButton = none ∧
    (ttsResume (handleTTS (handleTTS sampleInput 1 "Hello") 1 "Hello") .ok).stopIcons = [] := by
  refine ⟨by decide, by decide, by decide, by decide, by decide⟩

/-! ## Persona chat: the guard -/

/-- C11: with the chat input in the page, when its trimmed text is empty or
no analysis is current, `handleChatSend` returns normally and leaves the whole
state as it was: no bubble is appended, no network call is issued, and the
text and the enabled state of the input are unchanged. -/
theorem handleChatSend_guard (s : State) (c : ChatPanel) (r : ChatResponse)
    (hchat : s.chat = some c)
    (hguard : jsTrim c.inputValue = "" ∨ s.currentAnalysisData = none) :
    handleChatSend s r = (s, none) ∧
    (handleChatSend s r).1.chat = some c ∧
    (handleChatSend s r).1.network = s.network := by
  have hret : chatSendStart s = .returned s := by
    simp only [chatSendStart, hchat]
    cases ha : s.currentAnalysisData with
    | none => rfl
    | some a =>
      rcases hguard with hg | hg
      · simp [hg]
      · rw [ha] at hg; cases hg
  have hrun : handleChatSend s r = (s, none) := by
    simp only [handleChatSend, hret]
  rw [hrun]
  exact ⟨rfl, hchat, rfl⟩

/-- The message "hello" with no current analysis: nothing happens. -/
theorem handleChatSend_guard_witness :
    sampleChatNoAnalysis.currentAnalysisData = none ∧
    (handleChatSend sampleChatNoAnalysis (.ok (some "Hi") none)).1.network = [] ∧
    (handleChatSend sampleChatNoAnalysis (.ok (some "Hi") none)).1.chat =
      some { inputValue := "hello", inputDisabled := false, bubbles := [] } := by
  have h := handleChatSend_guard sampleChatNoAnalysis
    { inputValue := "hello", inputDisabled := false, bubbles := [] }
    (.ok (some "Hi") none) rfl (Or.inr (by decide))
  exact ⟨by decide, by rw [h.2.2]; decide, h.2.1⟩

/-! ## Generation: failure -/

/-- A normal return of `displayResults` means the analysis is there and
complete. -/
theorem displayResults_returns_complete (s : State) (ad : Option Analysis) (url : String)
    (h : (displayResults s ad url).2 = none) : ∃ a, ad = some a ∧ a.complete := by
  cases ad with
  | none => simp [displayResults] at h
  | some a =>
    refine ⟨a, rfl, ?_⟩
    obtain ⟨bp, fp, tp, ns, sl, story⟩ := a
    cases fp with
    | none => simp [displayResults] at h
    | some fp =>
      obtain ⟨hd, bd⟩ := fp
      cases hd <;> cases bd <;> try (simp [displayResults] at h)
      cases bp <;> cases ns <;> cases sl <;> cases tp <;> try (simp [displayResults] at h)
      rename_i hname bname bp ns sl tp
      obtain ⟨ar, tone, vals⟩ := bp
      obtain ⟨pn, age, occ, ints, pains⟩ := tp
      cases vals <;> cases ints <;> cases pains <;> try (simp [displayResults] at h)
      simp [Analysis.complete]

/-- The end of a failed run of `handleGenerateClick`: the `catch` block with
the caught exception, then the `finally` block. -/
theorem generateAfterFetch_fails (s0 : State) (r : GenerateResponse) (hfail : r.fails) :
    ∃ s1 e, generateAfterFetch s0 r = .done (generateFinally (generateCatch s1 e)) ∧
      s1.alerts = s0.alerts ∧ s1.network = s0.network ∧ s1.rows = s0.rows ∧
      (∀ error, r = .notOk (.parsed error) → e = .error (orFallback error "Server error.")) ∧
      (∀ kind, r = .notOk (.unreadable kind) → e = .engine kind) ∧
      (r = .notOk .nullBody → e = .engine "TypeError") := by
  cases r with
  | rejected =>
    exact ⟨s0, _, rfl, rfl, rfl, rfl, (by intro _ h; cases h), (by intro _ h; cases h),
      (by intro h; cases h)⟩
  | notOk body =>
    cases body with
    | unreadable kind =>
      exact ⟨s0, _, rfl, rfl, rfl, rfl, (by intro _ h; cases h),
        (by intro k h; cases h; rfl), (by intro h; cases h)⟩
    | nullBody =>
      exact ⟨s0, _, rfl, rfl, rfl, rfl, (by intro _ h; cases h), (by intro _ h; cases h),
        (by intro _; rfl)⟩
    | parsed error =>
      exact ⟨s0, _, rfl, rfl, rfl, rfl, (by intro k h; cases h; rfl),
        (by intro _ h; cases h), (by intro h; cases h)⟩
  | okUnreadable kind =>
    exact ⟨s0, _, rfl, rfl, rfl, rfl, (by intro _ h; cases h), (by intro _ h; cases h),
      (by intro h; cases h)⟩
  | ok data =>
    have hf := displayResults_frame s0 data.analysis data.logo_url
    have hthrow : (displayResults s0 data.analysis data.logo_url).2 ≠ none := by
      intro hret
      exact hfail (displayResults_returns_complete s0 data.analysis data.logo_url hret)
    simp only [generateAfterFetch]
    rcases hd : displayResults s0 data.analysis data.logo_url with ⟨s1, _ | e⟩
    · rw [hd] at hthrow; exact absurd rfl hthrow
    · rw [hd] at hf
      exact ⟨s1, e, rfl, hf.2.2.2.2.2.1, hf.2.2.2.2.1, hf.2.1,
        (by intro _ h; cases h), (by intro _ h; cases h), (by intro h; cases h)⟩

/-- C12, as stated, fails: a non-2xx response whose body is not JSON. The one
alert ends with the message of the exception `response.json()` raised, not
with the fallback 'Server error.'. -/
theorem handleGenerateClick_unreadable_error :
    (handleGenerateClick sampleDescribed (.notOk (.unreadable "SyntaxError"))
      .rejected).alerts =
      [Alert.textWithMessage "Failed to generate brand identity: " (.engine "SyntaxError")] ∧
    (handleGenerateClick sampleDescribed (.notOk (.unreadable "SyntaxError"))
      .rejected).alerts ≠
      [Alert.textWithMessage "Failed to generate brand identity: " (.error "Server error.")] := by
  refine ⟨by decide, by decide⟩

/-- C12, amended: when the trimmed description is not empty and the generation
call fails, `handleGenerateClick` shows exactly one alert, the text
'Failed to generate brand identity: ' followed by the message of the caught
exception, issues the generation call and no history refresh, and ends in the
Input view with the description field empty and no row marked. For a non-2xx
response whose body is a JSON value other than `null`, the message is the
`error` member when it is there and truthy and 'Server error.' otherwise; for
a non-2xx response whose body is not JSON it is the message of the exception
`response.json()` raised, and for a non-2xx response whose body is the JSON
value `null` it is the message of the `TypeError` of reading `.error` on
`null`. -/
theorem handleGenerateClick_failure (s : State) (r : GenerateResponse) (h : HistoryResponse)
    (hne : jsTrim s.descriptionValue ≠ "") (hfail : r.fails) :
    (∃ e, (handleGenerateClick s r h).alerts =
        s.alerts ++ [Alert.textWithMessage "Failed to generate brand identity: " e] ∧
      (∀ error, r = .notOk (.parsed error) → e = .error (orFallback error "Server error.")) ∧
      (∀ kind, r = .notOk (.unreadable kind) → e = .engine kind) ∧
      (r = .notOk .nullBody → e = .engine "TypeError")) ∧
    (handleGenerateClick s r h).network =
      s.network ++ [Request.generateBrand (jsTrim s.descriptionValue) s.lang] ∧
    (handleGenerateClick s r h).inputDisplay = "block" ∧
    (handleGenerateClick s r h).loaderDisplay = "none" ∧
    (handleGenerateClick s r h).outputDisplay = "none" ∧
    (handleGenerateClick s r h).descriptionValue = "" ∧
    (∀ row ∈ (handleGenerateClick s r h).rows, row.active = false) := by
  obtain ⟨s1, e, hdone, ha, hn, -, he1, he2, he3⟩ :=
    generateAfterFetch_fails (generateRequest (showLoading s) (jsTrim s.descriptionValue))
      r hfail
  have hrun : handleGenerateClick s r h = generateFinally (generateCatch s1 e) := by
    simp only [handleGenerateClick, hne, if_false, hdone]
  rw [hrun]
  refine ⟨⟨e, ?_, he1, he2, he3⟩, ?_, rfl, rfl, rfl, rfl, ?_⟩
  · show s1.alerts ++ _ = _
    rw [ha]; rfl
  · show s1.network = _
    rw [hn]; rfl
  · intro row hrow
    have hrows : (generateFinally (generateCatch s1 e)).rows =
        s1.rows.map fun el => { el with active := false } := rfl
    rw [hrows] at hrow
    obtain ⟨r0, -, rfl⟩ := List.mem_map.mp hrow
    rfl

/-- A server error with an `error` member: one alert carrying it, no history
refresh. -/
theorem handleGenerateClick_failure_witness :
    jsTrim sampleDescribed.descriptionValue ≠ "" ∧
    (handleGenerateClick sampleDescribed (.notOk (.parsed (some "Quota exceeded")))
      .rejected).network = [Request.generateBrand "eco-friendly coffee brand" "en"] :=
  ⟨by decide,
   (handleGenerateClick_failure sampleDescribed (.notOk (.parsed (some "Quota exceeded")))
      .rejected (by decide) trivial).2.1⟩

/-! ## History refresh: failure -/

/-- C13: when the history fetch rejects, returns a non-2xx status, or its body
fails to parse, `loadHistory` only issues the call: the cached list and the
rendered rows with their markers are as they were, and so is every other part
of the state. No exception escapes `loadHistory`, whose body is one `try`
block with a `catch` that only logs. -/
theorem loadHistory_failure (s : State) :
    (loadHistory s .rejected = loadHistoryStart s ∧
     (loadHistory s .rejected).currentHistory = s.currentHistory ∧
     (loadHistory s .rejected).rows = s.rows) ∧
    (loadHistory s .notOk = loadHistoryStart s ∧
     (loadHistory s .notOk).currentHistory = s.currentHistory ∧
     (loadHistory s .notOk).rows = s.rows) ∧
    (loadHistory s .badBody = loadHistoryStart s ∧
     (loadHistory s .badBody).currentHistory = s.currentHistory ∧
     (loadHistory s .badBody).rows = s.rows) ∧
    (loadHistoryStart s).alerts = s.alerts ∧
    (loadHistoryStart s).network = s.network ++ [Request.getHistory] :=
  ⟨⟨rfl, rfl, rfl⟩, ⟨rfl, rfl, rfl⟩, ⟨rfl, rfl, rfl⟩, rfl, rfl⟩

/-! ## Font loading -/

section FontLemmas

/-- One call of `loadGoogleFont`: a link is appended unless a link with the
id of the name is in the document. -/
theorem loadGoogleFont_links (s : State) (f : String) :
    (loadGoogleFont s f).fontLinks =
      if fontIdOf f ∈ s.fontLinks.map (fun l => l.id) then s.fontLinks
      else s.fontLinks ++ [fontLinkOf f] := by
  have hany : (s.fontLinks.any fun l => l.id == fontIdOf f) = true ↔
      fontIdOf f ∈ s.fontLinks.map (fun l => l.id) := by
    simp only [List.any_eq_true, List.mem_map, beq_iff_eq]
  by_cases hin : fontIdOf f ∈ s.fontLinks.map (fun l => l.id)
  · have ha := hany.mpr hin
    rw [if_pos hin]
    unfold loadGoogleFont
    simp only [fontIdOf] at ha
    simp [ha]
  · have ha : ¬ (s.fontLinks.any fun l => l.id == fontIdOf f) = true := fun h => hin (hany.mp h)
    rw [if_neg hin]
    unfold loadGoogleFont
    simp only [fontIdOf] at ha
    simp [ha, fontLinkOf, fontIdOf]

/-- The ids of the font links after a sequence of calls: those that were
there and those of the names of the sequence. -/
theorem loadGoogleFonts_ids (names : List String) : ∀ (s : State) (x : String),
    x ∈ (loadGoogleFonts s names).fontLinks.map (fun l => l.id) ↔
      x ∈ s.fontLinks.map (fun l => l.id) ∨ x ∈ names.map fontIdOf := by
  induction names with
  | nil => intro s x; simp [loadGoogleFonts]
  | cons f fs ih =>
    intro s x
    have hstep : loadGoogleFonts s (f :: fs) = loadGoogleFonts (loadGoogleFont s f) fs := rfl
    rw [hstep, ih (loadGoogleFont s f) x, loadGoogleFont_links]
    by_cases hin : fontIdOf f ∈ s.fontLinks.map (fun l => l.id)
    · rw [if_pos hin]
      simp only [List.map_cons, List.mem_cons]
      constructor
      · rintro (h | h)
        · exact Or.inl h
        · exact Or.inr (Or.inr h)
      · rintro (h | h | h)
        · exact Or.inl h
        · exact Or.inl (h ▸ hin)
        · exact Or.inr h
    · rw [if_neg hin]
      simp only [List.map_append, List.map_cons, List.map_nil, List.mem_append,
        List.mem_cons, List.mem_singleton, List.not_mem_nil, or_false]
      have hid : (fontLinkOf f).id = fontIdOf f := rfl
      rw [hid]
      tauto

end FontLemmas

/-- C14, as stated, fails: the names "Open Sans" and "Open-Sans" differ, and
so do "Open Sans" and "Open  Sans" (two spaces), yet the second call of each
pair adds no link, and the font "Open-Sans" is never requested. -/
theorem loadGoogleFonts_distinct_names_one_link :
    ("Open Sans" ≠ "Open-Sans" ∧
     (loadGoogleFonts sampleInput ["Open Sans", "Open-Sans"]).fontLinks =
       [{ id := "font-Open-Sans",
          href := "https://fonts.googleapis.com/css2?family=Open+Sans:wght@400;700&display=swap" }]) ∧
    ("Open Sans" ≠ "Open  Sans" ∧
     (loadGoogleFonts sampleInput ["Open Sans", "Open  Sans"]).fontLinks.length = 1) := by
  refine ⟨⟨by decide, by decide⟩, by decide, by decide⟩

/-- C14, amended: font loading is deduplicated by the element id of the font,
the text 'font-' followed by the name with every run of whitespace replaced
by '-'. In every sequence of `loadGoogleFont` calls, from every state, a call
adds a stylesheet link exactly when no link with the id of its name was in
the document at the start and no earlier call of the sequence had a name with
that id; calling it twice with the same name adds one link at most. -/
theorem loadGoogleFonts_dedup (s : State) (earlier : List String) (f : String) :
    (loadGoogleFonts s (earlier ++ [f])).fontLinks =
      (if fontIdOf f ∈ s.fontLinks.map (fun l => l.id) ++ earlier.map fontIdOf then
        (loadGoogleFonts s earlier).fontLinks
       else (loadGoogleFonts s earlier).fontLinks ++ [fontLinkOf f]) ∧
    (loadGoogleFonts s (earlier ++ [f, f])).fontLinks =
      (loadGoogleFonts s (earlier ++ [f])).fontLinks := by
  have hsnoc : ∀ (l : List String) (g : String),
      loadGoogleFonts s (l ++ [g]) = loadGoogleFont (loadGoogleFonts s l) g := by
    intro l g
    simp [loadGoogleFonts, List.foldl_append]
  have hmem : ∀ (l : List String) (x : String),
      x ∈ (loadGoogleFonts s l).fontLinks.map (fun l => l.id) ↔
        x ∈ s.fontLinks.map (fun l => l.id) ++ l.map fontIdOf := by
    intro l x
    rw [loadGoogleFonts_ids l s x, List.mem_append]
  constructor
  · rw [hsnoc, loadGoogleFont_links]
    by_cases hin : fontIdOf f ∈ s.fontLinks.map (fun l => l.id) ++ earlier.map fontIdOf
    · rw [if_pos hin, if_pos ((hmem earlier _).mpr hin)]
    · rw [if_neg hin, if_neg (fun h => hin ((hmem earlier _).mp h))]
  · have happ : earlier ++ [f, f] = (earlier ++ [f]) ++ [f] := by simp
    rw [happ, hsnoc (earlier ++ [f]) f, loadGoogleFont_links]
    have hin : fontIdOf f ∈ (loadGoogleFonts s (earlier ++ [f])).fontLinks.map (fun l => l.id) := by
      rw [loadGoogleFonts_ids]
      exact Or.inr (by simp)
    rw [if_pos hin]

/-! ## Logo download: the file name -/

section DownloadLemmas

/-- The replacement of whitespace runs leaves no whitespace, when the
replacement character is not one. -/
theorem replaceWsRuns_no_whitespace (sep : Char) (hsep : jsIsWhitespace sep = false) :
    ∀ (b : Bool) (cs : List Char), ∀ c ∈ replaceWsRuns sep b cs, jsIsWhitespace c = false := by
  intro b cs
  induction cs generalizing b with
  | nil => intro c hc; simp [replaceWsRuns] at hc
  | cons d ds ih =>
    intro c hc
    rw [replaceWsRuns] at hc
    by_cases hd : jsIsWhitespace d = true
    · rw [if_pos hd] at hc
      cases b with
      | true =>
        simp only [if_true] at hc
        exact ih true c hc
      | false =>
        simp only [Bool.false_eq_true, if_false] at hc
        rcases List.mem_cons.mp hc with h | h
        · rw [h]; exact hsep
        · exact ih true c h
    · rw [if_neg hd] at hc
      rcases List.mem_cons.mp hc with h | h
      · rw [h]; simpa using hd
      · exact ih false c h

/-- When the current analysis has a first brand name, the file name is
'logo_', then the name with every run of whitespace replaced by one
underscore (or 'brand' when that is empty), then '.png'; it holds no
whitespace. -/
theorem downloadFilename_first_name (a : Analysis) (first : String) (rest : List String)
    (hnames : a.brand_names = some (first :: rest)) :
    downloadFilename (some a) = .ok ("logo_" ++
      (if jsReplaceWs first (Char.ofNat 95) = "" then "brand"
       else jsReplaceWs first (Char.ofNat 95)) ++ ".png") ∧
    ∀ c ∈ ("logo_" ++
      (if jsReplaceWs first (Char.ofNat 95) = "" then "brand"
       else jsReplaceWs first (Char.ofNat 95)) ++ ".png").data, jsIsWhitespace c = false := by
  constructor
  · simp [downloadFilename, hnames]
  · intro c hc
    simp only [String.data_append, List.mem_append] at hc
    have hl1 : ∀ x ∈ "logo_".data, jsIsWhitespace x = false := by decide
    have hl2 : ∀ x ∈ "brand".data, jsIsWhitespace x = false := by decide
    have hl3 : ∀ x ∈ ".png".data, jsIsWhitespace x = false := by decide
    rcases hc with (h | h) | h
    · exact hl1 c h
    · split at h
      · exact hl2 c h
      · exact replaceWsRuns_no_whitespace (Char.ofNat 95) (by decide) false first.data c h
    · exact hl3 c h

end DownloadLemmas

/-- C15, on the code: the report of a complete analysis with an empty list of
brand names is rendered, the download is clicked and the proxy answers 2xx.
Reading `brand_names[0].replace` throws, so no download is triggered, with no
file name 'logo_brand.png', and the failure alert is shown. -/
theorem handleDownloadLogo_no_first_name :
    (displayResults sampleInput (some sampleNoNames) "/logos/1.png").2 = none ∧
    downloadFilename (some sampleNoNames) = .error (.engine "TypeError") ∧
    (handleDownloadLogo (displayResults sampleInput (some sampleNoNames) "/logos/1.png").1
      (some "/logos/1.png") .ok).2 = none ∧
    (handleDownloadLogo (displayResults sampleInput (some sampleNoNames) "/logos/1.png").1
      (some "/logos/1.png") .ok).1.alerts =
      [Alert.textWithMessage "Could not download the logo: " (.engine "TypeError")] := by
  refine ⟨by decide, rfl, by decide, by decide⟩

/-! ## The translation table -/

/-- For the six language codes `getTranslations` returns the table of the
language, and for every other code that is not a property name inherited from
`Object.prototype` the English table; on a table every label is a text, and
the English report title is "Brand Psychology Report". -/
theorem getTranslations_tables (lang : String) :
    getTranslations "en" = .table translations_en ∧
    getTranslations "es" = .table translations_es ∧
    getTranslations "fr" = .table translations_fr ∧
    getTranslations "hi" = .table translations_hi ∧
    getTranslations "zh" = .table translations_zh ∧
    getTranslations "ar" = .table translations_ar ∧
    (lang ∉ ["en", "es", "fr", "hi", "zh", "ar"] → lang ∉ objectPrototypeKeys →
      getTranslations lang = .table translations_en) ∧
    (getTranslations "en").label Labels.report_title = "Brand Psychology Report" := by
  refine ⟨by decide, by decide, by decide, by decide, by decide, by decide, ?_, by decide⟩
  intro h1 h2
  simp only [List.mem_cons, List.mem_singleton, List.not_mem_nil, or_false, not_or] at h1
  obtain ⟨a, b, c, d, e, f⟩ := h1
  simp [getTranslations, a, b, c, d, e, f, h2]

/-- Every label `displayResults` places in the template, for every document
language, holds no markup. -/
theorem labels_inert (lang : String) :
    ∀ f ∈ labelsRead, inertText ((getTranslations lang).label f) = true := by
  have htab : ∀ l ∈ [translations_en, translations_es, translations_fr, translations_hi,
      translations_zh, translations_ar], ∀ f ∈ labelsRead,
      inertText ((Translations.table l).label f) = true := by decide
  have hund : ∀ f ∈ labelsRead, inertText "undefined" = true := by decide
  unfold getTranslations
  split_ifs
  · exact htab _ (by simp)
  · exact htab _ (by simp)
  · exact htab _ (by simp)
  · exact htab _ (by simp)
  · exact htab _ (by simp)
  · exact htab _ (by simp)
  · exact hund
  · exact htab _ (by simp)

/-- C16, on the code: for the document language "constructor" (and likewise
"toString" and "__proto__") the lookup `translations[lang]` yields a member
inherited from `Object.prototype`, which is truthy, so `getTranslations`
returns it and not the English table; every label `displayResults` reads on
it is `undefined`, and the report title is not "Brand Psychology Report". -/
theorem getTranslations_inherited_key :
    getTranslations "constructor" = .inherited "constructor" ∧
    getTranslations "toString" = .inherited "toString" ∧
    getTranslations "__proto__" = .inherited "__proto__" ∧
    getTranslations "constructor" ≠ .table translations_en ∧
    labelsRead.map (getTranslations "constructor").label = List.replicate 20 "undefined" ∧
    (getTranslations "constructor").label Labels.report_title ≠ "Brand Psychology Report" := by
  refine ⟨by decide, by decide, by decide, by decide, by decide, by decide⟩

end PsyDesign
